import Mathlib

/-!
Verification development for the bedrock.contentful module: a shallow
embedding of the Contentful page API (src/bedrock/contentful/api.py), the
entry sync command (management/commands/update_contentful.py), and the parts
of the urllib / contentful-SDK / rich-text-renderer collaborators that the
module exercises, together with theorems settling the frozen claims about
the rich-text renderer, the entry mappers, the page assembler and the sync
procedure.

Conventions of the embedding:
 - Python dicts with string keys become association lists
   (List (String × _)); dict.get becomes an Option-returning lookup.
 - Fallible Python code (KeyError, AttributeError, TypeError, IndexError,
   ValueError) runs in Except Err.
 - Machine integers are Int; the aspect-ratio multipliers (the only
   non-integers in the source) are exact in rationals, so heights are
   computed in Rat with round-half-to-even as Python round does.
 - External collaborators (the CMS client fetch capability and the
   template renderer) are threaded as an explicit Ctx record, as the spec
   lists them among consumed capabilities.
-/

/-- Python dict lookup for string-keyed dicts: dict.get(k) as an Option. -/
def dictGet {α : Type} (table : List (String × α)) (k : String) : Option α :=
  (table.find? (fun p => p.1 == k)).map (fun p => p.2)

/-- Python dict.get(k, default). -/
def dictGetD {α : Type} (table : List (String × α)) (k : String) (d : α) : α :=
  (dictGet table k).getD d

/-- Python str.startswith, over the character lists (String.startsWith
itself does not reduce inside the kernel, so the model uses the list
prefix test, which is the same function). -/
def strStartsWith (s pre : String) : Bool :=
  pre.toList.isPrefixOf s.toList

/-- Python str.lower over the character list. -/
def strToLower (s : String) : String :=
  String.mk (s.toList.map Char.toLower)

/-- Whether pat occurs as a contiguous sublist of s. -/
def listHasInfix (pat : List Char) : List Char → Bool
  | [] => pat.isPrefixOf []
  | c :: rest => pat.isPrefixOf (c :: rest) || listHasInfix pat rest

/-- Python substring containment: pat in s. -/
def strContains (s pat : String) : Bool :=
  listHasInfix pat.toList s.toList

/-- LOCALE_MAP from api.py. -/
def LOCALE_MAP : List (String × String) := [("de", "de-DE")]

/-- ASPECT_RATIOS table from api.py. -/
def ASPECT_RATIOS : List (String × String) :=
  [("1:1", "1-1"), ("3:2", "3-2"), ("16:9", "16-9")]

/-- ASPECT_MULTIPLIER from api.py. The Python floats 1, 0.6666 and 0.5625
are represented exactly as numerator/denominator pairs (0.5625 = 9/16 and
0.6666 = 6666/10000 are exact binary-float values in the width range
used, so rounding agrees with CPython on every call site of the module,
and the float 0 default of a miss is the pair (0, 1)). -/
def ASPECT_MULTIPLIER : List (String × (Int × Int)) :=
  [("1:1", (1, 1)), ("3:2", (6666, 10000)), ("16:9", (5625, 10000))]

/-- PRODUCT_THEMES from api.py. -/
def PRODUCT_THEMES : List (String × String) :=
  [("Firefox", "family"),
   ("Firefox Browser", "firefox"),
   ("Firefox Browser Beta", "beta"),
   ("Firefox Browser Developer", "developer"),
   ("Firefox Browser Nightly", "nightly"),
   ("Firefox Browser Focus", "focus"),
   ("Firefox Monitor", "monitor"),
   ("Firefox Lockwise", "lockwise"),
   ("Mozilla", "mozilla"),
   ("Mozilla VPN", "vpn"),
   ("Pocket", "pocket")]

/-- WIDTHS from api.py. -/
def WIDTHS : List (String × String) :=
  [("Extra Small", "xs"), ("Small", "sm"), ("Medium", "md"),
   ("Large", "lg"), ("Extra Large", "xl"), ("Max", "max")]

/-- LAYOUT_CLASS from api.py. -/
def LAYOUT_CLASS : List (String × String) :=
  [("layout2Cards", "mzp-l-card-half"),
   ("layout3Cards", "mzp-l-card-third"),
   ("layout4Cards", "mzp-l-card-quarter"),
   ("layout5Cards", "mzp-l-card-hero")]

/-- THEME_CLASS from api.py. -/
def THEME_CLASS : List (String × String) :=
  [("Light", ""),
   ("Light (alternative)", "mzp-t-background-alt"),
   ("Dark", "mzp-t-dark"),
   ("Dark (alternative)", "mzp-t-dark mzp-t-background-alt")]

/-- COLUMN_CLASS from api.py. -/
def COLUMN_CLASS : List (String × String) :=
  [("1", ""),
   ("2", "mzp-l-columns mzp-t-columns-two "),
   ("3", "mzp-l-columns mzp-t-columns-three"),
   ("4", "mzp-l-columns mzp-t-columns-four")]

/-- PICTO_ICON_SIZE, the local table of ContentfulPage.get_picto_layout_data. -/
def PICTO_ICON_SIZE : List (String × Int) :=
  [("Small", 32), ("Medium", 48), ("Large", 64),
   ("Extra Large", 96), ("Extra Extra Large", 192)]

/-! ## Model of the urllib.parse collaborators used by api.py
(urlparse, urlunparse, urlencode, parse_qs), restricted to the
hierarchical URLs the renderer receives: the params component (a
semicolon suffix of the last path segment) is not split off, and
percent-decoding reads each escape as one byte, which is exact for the
ASCII inputs the module handles. -/

/-- The 6-tuple urllib.parse.urlparse returns. -/
structure UrlParts where
  scheme : String
  netloc : String
  path : String
  params : String
  query : String
  fragment : String
deriving Repr, DecidableEq

/-- Split a character list at the first occurrence of sep: the part
before it and the part after it, or none when sep does not occur. -/
def splitFirstAux (sep : List Char) : List Char → Option (List Char × List Char)
  | [] => none
  | c :: rest =>
    if sep.isPrefixOf (c :: rest) then some ([], (c :: rest).drop sep.length)
    else
      match splitFirstAux sep rest with
      | none => none
      | some (pre, post) => some (c :: pre, post)

/-- Split a string at the first occurrence of sep; the second component is
none when sep does not occur. -/
def splitFirst (s sep : String) : String × Option String :=
  if sep == "" then (s, none)
  else
    match splitFirstAux sep.toList s.toList with
    | none => (s, none)
    | some (pre, post) => (String.mk pre, some (String.mk post))

/-- All the pieces of repeated splitting at sep (str.split(sep) for a
non-empty separator), driven by a length fuel so that the recursion is
structural; the fuel always suffices since each split consumes at least
the separator. -/
def splitAllAux (sep : List Char) : Nat → List Char → List (List Char)
  | 0, l => [l]
  | fuel + 1, l =>
    match splitFirstAux sep l with
    | none => [l]
    | some (pre, post) => pre :: splitAllAux sep fuel post

/-- Python str.split(sep) for a non-empty separator. -/
def splitList (s sep : String) : List String :=
  (splitAllAux sep.toList (s.toList.length + 1) s.toList).map String.mk

/-- Valid characters of a URL scheme after the first (RFC 3986 as CPython
checks them). -/
def isSchemeChar (c : Char) : Bool :=
  c.isAlphanum || c == '+' || c == '-' || c == '.'

/-- urllib.parse.urlparse for the absolute and relative URLs that reach
LinkRenderer: fragment after the first hash mark, scheme before the first
colon when the prefix is a valid scheme, netloc after a leading double
slash up to the next slash, question mark or end, query after the first
question mark. -/
def urlparse (s : String) : UrlParts :=
  let (rest, frag) := splitFirst s "#"
  let fragment := frag.getD ""
  let (candidate, afterColon) := splitFirst rest ":"
  let hasScheme :=
    afterColon.isSome && candidate ≠ "" &&
      candidate.toList.all isSchemeChar && !(strContains candidate "/")
  let scheme := if hasScheme then strToLower candidate else ""
  let rest := if hasScheme then (afterColon.getD "") else rest
  let (netloc, rest) :=
    if strStartsWith rest "//" then
      let rest := rest.drop 2
      let stop := (rest.toList.takeWhile (fun c => c ≠ '/' && c ≠ '?')).length
      (rest.take stop, rest.drop stop)
    else ("", rest)
  let (path, q) := splitFirst rest "?"
  { scheme := scheme, netloc := netloc, path := path, params := "",
    query := q.getD "", fragment := fragment }

/-- urllib.parse.urlunparse on the parts urlparse produced: each component
is re-attached only when non-empty, with its delimiter. -/
def urlunparse (u : UrlParts) : String :=
  (if u.scheme == "" then "" else u.scheme ++ ":") ++
  (if u.netloc == "" then "" else "//" ++ u.netloc) ++
  u.path ++
  (if u.params == "" then "" else ";" ++ u.params) ++
  (if u.query == "" then "" else "?" ++ u.query) ++
  (if u.fragment == "" then "" else "#" ++ u.fragment)

/-- UTF-8 bytes of a Unicode code point, as byte values. -/
def utf8Bytes (n : Nat) : List Nat :=
  if n < 0x80 then [n]
  else if n < 0x800 then [0xC0 + n / 64, 0x80 + n % 64]
  else if n < 0x10000 then
    [0xE0 + n / 4096, 0x80 + (n / 64) % 64, 0x80 + n % 64]
  else
    [0xF0 + n / 262144, 0x80 + (n / 4096) % 64, 0x80 + (n / 64) % 64,
     0x80 + n % 64]

/-- Upper-case hex digit. -/
def hexDigit (n : Nat) : Char :=
  (("0123456789ABCDEF").toList).getD n '0'

/-- A percent-escape for one byte value. -/
def percentByte (b : Nat) : String :=
  String.mk ['%', hexDigit (b / 16 % 16), hexDigit (b % 16)]

/-- urllib.parse.quote_plus on one character: always-safe characters pass
through, space becomes plus, the rest percent-encode their UTF-8 bytes. -/
def quotePlusChar (c : Char) : String :=
  if c.isAlphanum || c == '_' || c == '.' || c == '-' || c == '~' then
    String.singleton c
  else if c == ' ' then "+"
  else String.join ((utf8Bytes c.toNat).map percentByte)

/-- urllib.parse.quote_plus. -/
def quotePlus (s : String) : String :=
  String.join (s.toList.map quotePlusChar)

/-- urllib.parse.urlencode over a (key, value) sequence, with the default
quote_plus quoting, preserving the insertion order of the dict literal the
source passes. -/
def urlencode (params : List (String × String)) : String :=
  String.intercalate "&"
    (params.map (fun p => quotePlus p.1 ++ "=" ++ quotePlus p.2))

/-- Position of a character in a digit table, counting from k. -/
def hexLookup : List Char → Nat → Char → Option Nat
  | [], _, _ => none
  | d :: rest, k, c => if d == c then some k else hexLookup rest (k + 1) c

/-- Hex digit value of a character, if any, in either case. -/
def hexVal (c : Char) : Option Nat :=
  match hexLookup ("0123456789abcdef").toList 0 c with
  | some v => some v
  | none => hexLookup ("0123456789ABCDEF").toList 0 c

/-- urllib.parse.unquote_plus over a character list: plus becomes space,
a valid percent escape becomes the character of its byte value (exact for
the ASCII data the module handles), everything else passes through. -/
def unquotePlusAux : List Char → List Char
  | [] => []
  | '+' :: rest => ' ' :: unquotePlusAux rest
  | '%' :: h1 :: h2 :: rest =>
    match hexVal h1, hexVal h2 with
    | some a, some b => Char.ofNat (a * 16 + b) :: unquotePlusAux rest
    | _, _ => '%' :: unquotePlusAux (h1 :: h2 :: rest)
  | c :: rest => c :: unquotePlusAux rest

/-- urllib.parse.unquote_plus. -/
def unquotePlus (s : String) : String :=
  String.mk (unquotePlusAux s.toList)

/-- urllib.parse.parse_qsl with the defaults api.py uses: split the query
on ampersands, keep only fields holding an equals sign with a non-empty
value (keep_blank_values is false), and unquote names and values. -/
def parseQsl (query : String) : List (String × String) :=
  (splitList query "&").foldr
    (fun field acc =>
      match splitFirst field "=" with
      | (_, none) => acc
      | (name, some value) =>
        if value == "" then acc
        else (unquotePlus name, unquotePlus value) :: acc)
    []

/-- parse_qs(query)[name][0]: the first value listed for name, or a
KeyError signalled as none when the name is absent (values with an equals
sign always yield non-empty lists, so the [0] subscript never fails). -/
def parseQsFirst (query : String) (name : String) : Option String :=
  (parseQsl query |>.find? (fun p => p.1 == name)).map (fun p => p.2)

/-! ## Python error model and the CMS data model -/

/-- The Python exceptions the module can raise: KeyError with the missing
key, AttributeError (attribute access on an unsuitable object, e.g. None),
TypeError (iteration or operators on unsuitable objects), IndexError, and
the one ValueError get_content raises for an unrecognized page type, kept
as its own constructor since the error taxonomy distinguishes it. -/
inductive Err where
  | keyError (key : String)
  | attrError
  | typeError
  | indexError
  | unrecognizedPageType (tag : String)
deriving Repr, DecidableEq

/-- A fetched Asset: the protocol-relative base URL of its file and its
title; asset.fields().get("file").get("url") is the same base URL. -/
structure Asset where
  url : String
  title : String
deriving Repr, DecidableEq

/-- The sys record of an Entry: id, content-type tag, and locale. -/
structure Sys where
  id : String
  contentType : String
  locale : String
deriving Repr, DecidableEq

mutual
/-- A field value of a CMS Entry: scalar strings and integers, string
lists, asset references, linked entries, ordered entry sequences, and
rich-text documents (held as raw node trees, see Node below). -/
inductive FVal where
  | str (s : String)
  | int (n : Int)
  | strList (l : List String)
  | asset (a : Asset)
  | entry (e : Entry)
  | entryList (l : List Entry)
  | doc (n : Node)

/-- A CMS Entry: its sys record and its fields dict. -/
inductive Entry where
  | mk (sys : Sys) (fields : List (String × FVal))

/-- A rich-text document node. A text leaf is a dict bearing nodeType
"text" and a value but no content key; every other node is a dict bearing
its nodeType tag, a data dict (uri for hyperlinks, target sys id for
embedded entries and assets) and a content list. Text marks are not
modelled: no claim concerns bold or italic, and the mark tables of the
source are carried as node-type renderers below exactly as the renderer
mapping lists them. -/
inductive Node where
  | text (value : String)
  | node (nodeType : String) (uri : String) (targetId : String)
         (content : List Node)
end

/-- entry.sys. -/
def Entry.sysOf : Entry → Sys
  | .mk s _ => s

/-- entry.fields(). -/
def Entry.fieldsOf : Entry → List (String × FVal)
  | .mk _ f => f

/-- node["nodeType"]. -/
def Node.nodeTypeOf : Node → String
  | .text _ => "text"
  | .node t _ _ _ => t

/-- node["value"] where the caller has already checked the node is a text
leaf (the source only reads value under such a guard). -/
def Node.valueOf : Node → String
  | .text v => v
  | .node _ _ _ _ => ""

/-- node["content"]: a KeyError on a text leaf, which has no content key. -/
def Node.contentOf : Node → Except Err (List Node)
  | .text _ => .error (.keyError "content")
  | .node _ _ _ cs => .ok cs

/-- Python truthiness of a field value: empty strings, zero and empty
sequences are falsy; assets, entries and document nodes are truthy. -/
def FVal.truthy : FVal → Bool
  | .str s => s ≠ ""
  | .int n => n ≠ 0
  | .strList l => !l.isEmpty
  | .asset _ => true
  | .entry _ => true
  | .entryList l => !l.isEmpty
  | .doc _ => true

/-- Python dict.get with a field value as key: string keys look up the
table, any other value misses and yields the default. -/
def dictGetF {α : Type} (table : List (String × α)) (v : Option FVal)
    (d : α) : α :=
  match v with
  | some (.str s) => dictGetD table s d
  | _ => d

/-- Python dict.get with a field value as key and no default: string keys
look up the table, any other value misses. -/
def dictGetFOpt {α : Type} (table : List (String × α)) (v : Option FVal) :
    Option α :=
  match v with
  | some (.str s) => dictGet table s
  | _ => none

/-- Truthiness of dict.get output: None is falsy. -/
def truthyO (v : Option FVal) : Bool :=
  match v with
  | none => false
  | some x => x.truthy

/-- Python str() of a field value or None, for the scalar values the
source passes through f-strings and str() (strings, integers, None). -/
def pyStr (v : Option FVal) : String :=
  match v with
  | none => "None"
  | some (.str s) => s
  | some (.int n) => toString n
  | some _ => "<object>"

/-- Python membership needle in v for the value shapes the source tests:
substring containment on strings, element membership on string lists, a
TypeError on anything else. -/
def pyIn (needle : String) (v : FVal) : Except Err Bool :=
  match v with
  | .str s => .ok (strContains s needle)
  | .strList l => .ok (l.contains needle)
  | _ => .error .typeError

/-- Python round on the exact fraction num/den (den positive): nearest
integer, ties to even. -/
def pyRound (num den : Int) : Int :=
  let f : Int := Int.fdiv num den
  let r : Int := num - f * den
  if 2 * r < den then f
  else if den < 2 * r then f + 1
  else if f % 2 == 0 then f else f + 1

/-- contentful_locale from api.py. -/
def contentful_locale (locale : String) : String :=
  if strStartsWith locale "es-" then "es"
  else dictGetD LOCALE_MAP locale locale

/-- _get_height from api.py: round(width * ASPECT_MULTIPLIER.get(aspect, 0)).
The aspect key is whatever value the caller passed (a string literal or a
fields.get result), so the lookup takes a field value. -/
def _get_height (width : Int) (aspect : FVal) : Int :=
  let m := dictGetF ASPECT_MULTIPLIER (some aspect) (0, 1)
  pyRound (width * m.1) m.2

/-- The contentful SDK image.url(w=width) query building. -/
def Asset.urlW (a : Asset) (w : Int) : String :=
  a.url ++ "?w=" ++ toString w

/-- The contentful SDK image.url call with no width parameter, as reached
when a picto layout resolves no icon size (None is omitted). -/
def Asset.urlPlain (a : Asset) : String := a.url

/-- The contentful SDK image.url(w=.., h=.., fit="fill", f="faces") query
building, parameters in the keyword order of the call site. -/
def Asset.urlCard (a : Asset) (w h : Int) : String :=
  a.url ++ "?w=" ++ toString w ++ "&h=" ++ toString h ++ "&fit=fill&f=faces"

/-- _get_image_url from api.py. -/
def _get_image_url (image : Asset) (width : Int) : String :=
  "https:" ++ image.urlW width

/-- _get_image_url as called with a possibly-None width (picto layouts). -/
def _get_image_url_opt (image : Asset) (width : Option Int) : String :=
  match width with
  | some w => "https:" ++ image.urlW w
  | none => "https:" ++ image.urlPlain

/-- _get_card_image_url from api.py. -/
def _get_card_image_url (image : Asset) (width : Int) (aspect : FVal) : String :=
  "https:" ++ image.urlCard width (_get_height width aspect)

/-- _get_product_class from api.py; the argument is a fields.get result. -/
def _get_product_class (product : Option FVal) : String :=
  "mzp-t-product-" ++ dictGetF PRODUCT_THEMES product ""

/-- _get_layout_class from api.py. -/
def _get_layout_class (layout : String) : String :=
  dictGetD LAYOUT_CLASS layout ""

/-- _get_abbr_from_width from api.py. -/
def _get_abbr_from_width (width : String) : String :=
  dictGetD WIDTHS width ""

/-- _get_aspect_ratio_class from api.py; the argument is the aspect value
in use at the call site. -/
def _get_aspect_ratio_class (aspect_ratio : FVal) : String :=
  "mzp-has-aspect-" ++ dictGetF ASPECT_RATIOS (some aspect_ratio) ""

/-- _get_width_class from api.py: the width argument arrives from
fields.get (or as a string literal), tested for truthiness. -/
def _get_width_class (width : Option FVal) : String :=
  if truthyO width then "mzp-t-content-" ++ dictGetF WIDTHS width "" else ""

/-- _get_theme_class from api.py; the argument is a fields.get result. -/
def _get_theme_class (theme : Option FVal) : String :=
  dictGetF THEME_CLASS theme ""

/-- _get_youtube_id from api.py: parse the URL, parse its query string,
take queries["v"][0]; a missing v key is a KeyError. -/
def _get_youtube_id (youtube_url : String) : Except Err String :=
  let url_data := urlparse youtube_url
  match parseQsFirst url_data.query "v" with
  | some v => .ok v
  | none => .error (.keyError "v")

/-- _get_column_class from api.py. -/
def _get_column_class (columns : String) : String :=
  dictGetD COLUMN_CLASS columns ""

/-! ## The rich-text renderer of api.py -/

/-- Python equality of a field value against a string literal. -/
def fvEqStr (v : Option FVal) (s : String) : Bool :=
  match v with
  | some (.str x) => x == s
  | _ => false

/-- The three template fragments api.py renders through the external
render_to_string capability, with the exact data dicts the source builds
(location and cta_text are passthrough slots the source leaves as noted in
its TODO comments). -/
inductive Template where
  | logo (product_name : FVal) (product_icon : String) (icon_size : String)
  | wordmark (product_name : FVal) (product_icon : String) (icon_size : String)
  | cta (action : Option FVal) (label : Option FVal) (button_class : String)
        (location : String) (cta_text : Option FVal)

/-- The external collaborators of the module: the CMS client entry and
asset fetches used by the embedded-node renderers, and the external
template renderer. -/
structure Ctx where
  fetchEntry : String → Except Err Entry
  fetchAsset : String → Except Err Asset
  renderToString : Template → String

/-- _make_logo from api.py. -/
def _make_logo (ctx : Ctx) (entry : Entry) : Except Err String := do
  let fields := entry.fieldsOf
  match dictGet fields "product_icon" with
  | none => .error (.keyError "product_icon")
  | some product =>
    let icon_size :=
      if truthyO (dictGet fields "icon_size") then
        dictGetF WIDTHS (dictGet fields "icon_size") ""
      else "md"
    .ok (ctx.renderToString
      (.logo product (dictGetF PRODUCT_THEMES (some product) "") icon_size))

/-- _make_wordmark from api.py. -/
def _make_wordmark (ctx : Ctx) (entry : Entry) : Except Err String := do
  let fields := entry.fieldsOf
  match dictGet fields "product_icon" with
  | none => .error (.keyError "product_icon")
  | some product =>
    let icon_size :=
      if truthyO (dictGet fields "icon_size") then
        dictGetF WIDTHS (dictGet fields "icon_size") ""
      else "md"
    .ok (ctx.renderToString
      (.wordmark product (dictGetF PRODUCT_THEMES (some product) "") icon_size))

/-- _make_cta_button from api.py: the argument is whatever fields.get
produced at the call site; .fields() on None or a non-entry value is an
AttributeError. -/
def _make_cta_button (ctx : Ctx) (v : Option FVal) : Except Err String :=
  match v with
  | some (.entry e) =>
    let fields := e.fieldsOf
    let button_class := String.intercalate " "
      ["mzp-t-product",
       if fvEqStr (dictGet fields "theme") "Secondary" then "mzp-t-secondary"
       else "",
       if truthyO (dictGet fields "size") then
         "mzp-t-" ++ dictGetF WIDTHS (dictGet fields "size") ""
       else ""]
    .ok (ctx.renderToString
      (.cta (dictGet fields "action") (dictGet fields "label") button_class
        "" (dictGet fields "label")))
  | _ => .error .attrError

/-- The loop body of _make_plain_text: concatenate child_node["value"]
over the direct children; a child without a value key (any non-text
child) is a KeyError. -/
def plainOfList : List Node → Except Err String
  | [] => .ok ""
  | .text v :: rest => (plainOfList rest).map (fun r => v ++ r)
  | .node _ _ _ _ :: _ => .error (.keyError "value")

/-- _make_plain_text from api.py. -/
def _make_plain_text (node : Node) : Except Err String := do
  let content ← node.contentOf
  plainOfList content

/-- The loop of _only_child from api.py, with its found counter and early
exits: a non-matching, non-empty text child seen before any match makes
the answer false, and so does a second matching child. -/
def onlyChildGo (nodeType : String) : List Node → Nat → Bool
  | [], _ => true
  | c :: rest, found =>
    if c.nodeTypeOf ≠ nodeType && found == 0 then
      if c.nodeTypeOf == "text" && c.valueOf ≠ "" then false
      else onlyChildGo nodeType rest found
    else if c.nodeTypeOf == nodeType then
      if found + 1 > 1 then false
      else onlyChildGo nodeType rest (found + 1)
    else onlyChildGo nodeType rest found

/-- _only_child from api.py. -/
def _only_child (node : Node) (nodeType : String) : Except Err Bool := do
  let content ← node.contentOf
  .ok (onlyChildGo nodeType content 0)

/-- The referral suffix LinkRenderer.render builds: for a link whose host
contains mozilla.org but is not www.mozilla.org and whose query string
does not already contain utm_, the three UTM parameters after a question
mark or ampersand; otherwise empty. -/
def linkRef (url : UrlParts) (campaign : String) : String :=
  if strContains url.netloc "mozilla.org" && url.netloc ≠ "www.mozilla.org" then
    if !(strContains url.query "utm_") then
      (if url.query == "" then "?" else "&") ++
        urlencode [("utm_source", "www.mozilla.org"),
                   ("utm_medium", "referral"),
                   ("utm_campaign", campaign)]
    else ""
  else ""

/-- _render_list from api.py. -/
def _render_list (tag content : String) : String :=
  "<" ++ tag ++ " class=\x27mzp-u-list-styled\x27>" ++ content ++
    "</" ++ tag ++ ">"

/-- The per-node dispatch of RichTextRenderer with the renderer mapping
ContentfulPage installs, for a non-leaf node: rContent is the rendered
concatenation of the children (BaseBlockRenderer._render_content of the
node) and rInner the rendered concatenation of the children of the first
child (what the list-item shortcut emits). Both are pure Except values
computed by the recursive wrapper below, so passing them as arguments
leaves the rendered values and errors unchanged. The branches follow the
renderer classes of api.py: hyperlink, bold and italic (installed as
mark renderers which, applied to a block node, read the absent value
key), the lists, list-item, paragraph, embedded-entry-inline,
embedded-asset-block, the default document concatenation, and the
renderer-mapping miss for anything else. The campaign argument is the
page_info utm_campaign of the enclosing request that LinkRenderer
reads. -/
def renderNode (ctx : Ctx) (campaign : String) (t uri tid : String)
    (cs : List Node) (rContent rInner : Except Err String) :
    Except Err String :=
    if t == "hyperlink" then do
      let url := urlparse uri
      let ref := linkRef url campaign
      let rel :=
        if url.netloc ≠ "www.mozilla.org" then " rel=\"external noopener\""
        else ""
      let dataCta ←
        if url.netloc ≠ "www.mozilla.org" then
          (_make_plain_text (.node t uri tid cs)).map
            (fun ct =>
              " data-cta-type=\"link\" data-cta-text=\"" ++ ct ++ "\"")
        else .ok ""
      let content ← rContent
      .ok ("<a href=\"" ++ urlunparse url ++ ref ++ "\"" ++ dataCta ++ rel ++
        ">" ++ content ++ "</a>")
    else if t == "bold" then .error (.keyError "value")
    else if t == "italic" then .error (.keyError "value")
    else if t == "unordered-list" then
      rContent.map (_render_list "ul")
    else if t == "ordered-list" then
      rContent.map (_render_list "ol")
    else if t == "list-item" then do
      let oc ← _only_child (.node t uri tid cs) "text"
      if oc then
        rInner.map (fun s => "<li>" ++ s ++ "</li>")
      else
        rContent.map (fun s => "<li>" ++ s ++ "</li>")
    else if t == "paragraph" then do
      let oc ← _only_child (.node t uri tid cs) "hyperlink"
      if oc then
        rContent.map (fun s => "<p class=\"mzp-c-cta-link\">" ++ s ++ "</p>")
      else
        match cs with
        | [c] =>
          if c.nodeTypeOf == "text" && c.valueOf == "" then .ok ""
          else
            rContent.map (fun s => "<p>" ++ s ++ "</p>")
        | _ =>
          rContent.map (fun s => "<p>" ++ s ++ "</p>")
    else if t == "embedded-entry-inline" then do
      let entry ← ctx.fetchEntry tid
      let content_type := entry.sysOf.contentType
      if content_type == "componentLogo" then _make_logo ctx entry
      else if content_type == "componentWordmark" then _make_wordmark ctx entry
      else if content_type == "componentCtaButton" then
        _make_cta_button ctx (some (.entry entry))
      else .ok content_type
    else if t == "embedded-asset-block" then do
      let asset ← ctx.fetchAsset tid
      .ok ("<img src=\"" ++ _get_image_url asset 688 ++ "\" srcset=\"" ++
        _get_image_url asset 1376 ++ " 1.5x\" alt=\"" ++ asset.title ++
        "\" />")
    else if t == "document" then rContent
    else .error (.keyError t)

mutual
/-- The recursive dispatch of RichTextRenderer: text leaves return their
value, every other node goes through renderNode with its rendered child
content. -/
def render (ctx : Ctx) (campaign : String) : Node → Except Err String
  | .text v => .ok v
  | .node t uri tid cs =>
    renderNode ctx campaign t uri tid cs (renderList ctx campaign cs)
      (renderInner ctx campaign cs)

/-- The _render_content of the first child of a content list, as the
list-item shortcut branch computes it: content[0] must exist (an
IndexError otherwise) and must bear a content key (text leaves do not). -/
def renderInner (ctx : Ctx) (campaign : String) :
    List Node → Except Err String
  | [] => .error .indexError
  | .text _ :: _ => .error (.keyError "content")
  | .node _ _ _ ccs :: _ => renderList ctx campaign ccs

/-- BaseBlockRenderer._render_content: children rendered and joined. -/
def renderList (ctx : Ctx) (campaign : String) : List Node → Except Err String
  | [] => .ok ""
  | n :: ns => do
    let s ← render ctx campaign n
    let r ← renderList ctx campaign ns
    .ok (s ++ r)
end

/-- ContentfulPage.render_rich_text: render the node if truthy, else the
empty string. -/
def render_rich_text (ctx : Ctx) (campaign : String) (v : Option FVal) :
    Except Err String :=
  if truthyO v then
    match v with
    | some (.doc n) => render ctx campaign n
    | some _ => .error .typeError
    | none => .ok ""
  else .ok ""

/-! ## The entry mappers of ContentfulPage -/

/-- SPLIT_LAYOUT_CLASS class attribute of ContentfulPage. -/
def SPLIT_LAYOUT_CLASS : List (String × String) :=
  [("Even", ""), ("Narrow", "mzp-l-split-body-narrow"),
   ("Wide", "mzp-l-split-body-wide")]

/-- SPLIT_MEDIA_WIDTH_CLASS class attribute of ContentfulPage. -/
def SPLIT_MEDIA_WIDTH_CLASS : List (String × String) :=
  [("Fill available width", ""),
   ("Fill available height", "mzp-l-split-media-constrain-height"),
   ("Overflow container", "mzp-l-split-media-overflow")]

/-- SPLIT_V_ALIGN_CLASS class attribute of ContentfulPage. -/
def SPLIT_V_ALIGN_CLASS : List (String × String) :=
  [("Top", "mzp-l-split-v-start"), ("Center", "mzp-l-split-v-center"),
   ("Bottom", "mzp-l-split-v-end")]

/-- SPLIT_H_ALIGN_CLASS class attribute of ContentfulPage. -/
def SPLIT_H_ALIGN_CLASS : List (String × String) :=
  [("Left", "mzp-l-split-h-start"), ("Center", "mzp-l-split-h-center"),
   ("Right", "mzp-l-split-h-end")]

/-- SPLIT_POP_CLASS class attribute of ContentfulPage. -/
def SPLIT_POP_CLASS : List (String × String) :=
  [("None", ""), ("Both", "mzp-l-split-pop"),
   ("Top", "mzp-l-split-pop-top"), ("Bottom", "mzp-l-split-pop-bottom")]

/-- A Python value that is either a string or an integer (the
heading_level view-model slot holds a sliced string or the default 3). -/
inductive StrOrInt where
  | s (v : String)
  | n (v : Int)

/-- The view-model of get_text_data. -/
structure TextData where
  component : String
  body : String
  width_class : String

/-- The view-model of get_hero_data. -/
structure HeroData where
  component : String
  theme_class : String
  product_class : String
  title : Option FVal
  tagline : Option FVal
  body : String
  image : String
  image_class : String
  include_cta : Bool
  cta : String

/-- The view-model of get_section_data. -/
structure SectionData where
  component : String
  heading : Option FVal

/-- The view-model of get_split_data. -/
structure SplitData where
  component : String
  block_class : String
  theme_class : String
  body_class : String
  body : String
  media_class : String
  image : String
  mobile_class : String

/-- The view-model of get_callout_data. -/
structure CalloutData where
  component : String
  theme_class : String
  product_class : String
  title : Option FVal
  body : String
  cta : String

/-- The view-model of get_card_data and get_large_card_data; component is
card, or large_card after the large-card overwrite. -/
structure CardData where
  component : String
  heading : Option FVal
  tag : Option FVal
  link : Option FVal
  body : String
  aspect_ratio : String
  highres_image_url : String
  image_url : String
  youtube_id : String

/-- The view-model of get_card_layout_data. -/
structure CardLayoutData where
  component : String
  layout_class : String
  aspect_ratio : Option FVal
  cards : List CardData

/-- The view-model of get_picto_data; body is a rendered string or the
Python False the source stores when the body field is falsy. -/
structure PictoData where
  component : String
  heading : Option FVal
  body : Option String
  image_url : String

/-- The view-model of get_picto_layout_data. -/
structure PictoLayoutData where
  component : String
  layout_class : String
  heading_level : StrOrInt
  image_width : Option Int
  pictos : List PictoData

/-- The view-model of get_text_column_data. -/
structure TextColumnsData where
  component : String
  layout_class : String
  content : List String

/-- get_text_data from api.py. -/
def get_text_data (ctx : Ctx) (campaign : String) (value : Option FVal) :
    Except Err TextData := do
  let body ← render_rich_text ctx campaign value
  .ok { component := "text", body := body,
        width_class := _get_width_class (some (.str "Medium")) }

/-- get_hero_data from api.py. -/
def get_hero_data (ctx : Ctx) (campaign : String) (entry_obj : Entry) :
    Except Err HeroData := do
  let fields := entry_obj.fieldsOf
  let img ← match dictGet fields "image" with
    | some (.asset a) => .ok a
    | some _ => .error .attrError
    | none => .error (.keyError "image")
  let hero_image_url := _get_image_url img 800
  let hero_reverse := dictGet fields "image_side"
  let hero_body ← render_rich_text ctx campaign (dictGet fields "body")
  let product_class :=
    if truthyO (dictGet fields "product_icon") &&
        !(fvEqStr (dictGet fields "product_icon") "None") then
      _get_product_class (dictGet fields "product_icon")
    else ""
  let cta ←
    if truthyO (dictGet fields "cta") then
      _make_cta_button ctx (dictGet fields "cta")
    else .ok ""
  .ok { component := "hero",
        theme_class := _get_theme_class (dictGet fields "theme"),
        product_class := product_class,
        title := dictGet fields "heading",
        tagline := dictGet fields "tagline",
        body := hero_body,
        image := hero_image_url,
        image_class := if fvEqStr hero_reverse "Left" then "mzp-l-reverse"
                       else "",
        include_cta := truthyO (dictGet fields "cta"),
        cta := cta }

/-- get_section_data from api.py. -/
def get_section_data (entry_obj : Entry) : Except Err SectionData :=
  .ok { component := "sectionHeading",
        heading := dictGet entry_obj.fieldsOf "heading" }

/-- get_split_data from api.py, with its nested class builders inlined in
the order the data dict evaluates them. -/
def get_split_data (ctx : Ctx) (campaign : String) (entry_obj : Entry) :
    Except Err SplitData := do
  let fields := entry_obj.fieldsOf
  let img ← match dictGet fields "image" with
    | some (.asset a) => .ok a
    | some _ => .error .attrError
    | none => .error (.keyError "image")
  let split_image_url := _get_image_url img 800
  let block_class := String.intercalate " "
    [if fvEqStr (dictGet fields "image_side") "Left" then "mzp-l-split-reversed"
     else "",
     dictGetF SPLIT_LAYOUT_CLASS (dictGet fields "body_width") "",
     dictGetF SPLIT_POP_CLASS (dictGet fields "image_pop") ""]
  let body_class := String.intercalate " "
    [dictGetF SPLIT_V_ALIGN_CLASS (dictGet fields "body_vertical_alignment") "",
     dictGetF SPLIT_H_ALIGN_CLASS (dictGet fields "body_horizontal_alignment") ""]
  let body ← render_rich_text ctx campaign (dictGet fields "body")
  let media_class := String.intercalate " "
    [dictGetF SPLIT_MEDIA_WIDTH_CLASS (dictGet fields "image_width") "",
     dictGetF SPLIT_V_ALIGN_CLASS (dictGet fields "image_vertical_alignment") "",
     dictGetF SPLIT_H_ALIGN_CLASS (dictGet fields "image_horizontal_alignment") ""]
  let mobile_class ←
    match dictGet fields "mobile_display" with
    | none => .ok ""
    | some md =>
      if md.truthy then do
        let center ← pyIn "Center content" md
        let hide ← pyIn "Hide image" md
        .ok (String.intercalate " "
          [if center then "mzp-l-split-center-on-sm-md" else "",
           if hide then "mzp-l-split-hide-media-on-sm-md" else ""])
      else .ok ""
  .ok { component := "split", block_class := block_class,
        theme_class := _get_theme_class (dictGet fields "theme"),
        body_class := body_class, body := body, media_class := media_class,
        image := split_image_url, mobile_class := mobile_class }

/-- get_callout_data from api.py. -/
def get_callout_data (ctx : Ctx) (campaign : String) (entry_obj : Entry) :
    Except Err CalloutData := do
  let fields := entry_obj.fieldsOf
  let body ←
    if truthyO (dictGet fields "body") then
      render_rich_text ctx campaign (dictGet fields "body")
    else .ok ""
  let cta ← _make_cta_button ctx (dictGet fields "cta")
  .ok { component := "callout",
        theme_class := _get_theme_class (dictGet fields "theme"),
        product_class :=
          if truthyO (dictGet fields "product_icon") then
            _get_product_class (dictGet fields "product_icon")
          else "",
        title := dictGet fields "heading", body := body, cta := cta }

/-- get_card_data from api.py: the card object is whatever the call site
produced (an entry of a content list, or a fields.get result that may be
None), and the aspect ratio is the value in use at the call site with the
16:9 fallback for falsy values. -/
def get_card_data (ctx : Ctx) (campaign : String) (card_obj : Option FVal)
    (aspect_ratio : Option FVal) : Except Err CardData := do
  let ar : FVal :=
    match aspect_ratio with
    | some v => if v.truthy then v else .str "16:9"
    | none => .str "16:9"
  let fields ← match card_obj with
    | some (.entry e) => .ok e.fieldsOf
    | _ => .error .attrError
  let card_body ←
    if truthyO (dictGet fields "body") then
      render_rich_text ctx campaign (dictGet fields "body")
    else .ok ""
  let urls ← match dictGet fields "image" with
    | some (.asset a) =>
      .ok (_get_card_image_url a 800 ar, _get_card_image_url a 800 ar)
    | some _ => .error .attrError
    | none => .ok ("", "")
  let youtube_id ← match dictGet fields "you_tube" with
    | some (.str yt) => _get_youtube_id yt
    | some _ => .error .typeError
    | none => .ok ""
  .ok { component := "card",
        heading := dictGet fields "heading",
        tag := dictGet fields "tag",
        link := dictGet fields "link",
        body := card_body,
        aspect_ratio :=
          if urls.2 ≠ "" then _get_aspect_ratio_class ar else "",
        highres_image_url := urls.1,
        image_url := urls.2,
        youtube_id := youtube_id }

/-- get_large_card_data from api.py: the base card rendered at 16:9, then
component and image URLs overwritten with the large values only when the
layout entry carries a truthy image field. -/
def get_large_card_data (ctx : Ctx) (campaign : String)
    (entry_obj : Option FVal) (card_obj : Option FVal) :
    Except Err CardData := do
  let fields ← match entry_obj with
    | some (.entry e) => .ok e.fieldsOf
    | _ => .error .attrError
  let card_data ← get_card_data ctx campaign card_obj (some (.str "16:9"))
  match dictGet fields "image" with
  | some v =>
    if v.truthy then
      match v with
      | .asset a =>
        .ok { card_data with
              component := "large_card",
              highres_image_url := _get_card_image_url a 1860 (.str "16:9"),
              image_url := _get_card_image_url a 1860 (.str "16:9") }
      | _ => .error .attrError
    else .ok card_data
  | none => .ok card_data

/-- The card loop of get_card_layout_data: the card straight after the
large card gets aspect 1:1, every later card the layout aspect ratio. -/
def cardLoop (ctx : Ctx) (campaign : String) (aspect_ratio : Option FVal) :
    Bool → List Entry → Except Err (List CardData)
  | _, [] => .ok []
  | follows_large_card, card :: rest => do
    let this_aspect :=
      if follows_large_card then some (FVal.str "1:1") else aspect_ratio
    let card_data ← get_card_data ctx campaign (some (.entry card)) this_aspect
    let more ← cardLoop ctx campaign aspect_ratio false rest
    .ok (card_data :: more)

/-- get_card_layout_data from api.py. -/
def get_card_layout_data (ctx : Ctx) (campaign : String) (entry_obj : Entry) :
    Except Err CardLayoutData := do
  let fields := entry_obj.fieldsOf
  let aspect_ratio := dictGet fields "aspect_ratio"
  let layout := entry_obj.sysOf.contentType
  let first ←
    if layout == "layout5Cards" then do
      let card_layout_obj := dictGet fields "large_card"
      let card_obj ← match card_layout_obj with
        | some (.entry l) => .ok (dictGet l.fieldsOf "card")
        | _ => .error .attrError
      let large_card_data ←
        get_large_card_data ctx campaign card_layout_obj card_obj
      .ok ([large_card_data], true)
    else
      .ok ([], false)
  let cards ← match dictGet fields "content" with
    | some (.entryList l) => .ok l
    | _ => .error .typeError
  let rest ← cardLoop ctx campaign aspect_ratio first.2 cards
  .ok { component := "cardLayout",
        layout_class := _get_layout_class layout,
        aspect_ratio := aspect_ratio,
        cards := first.1 ++ rest }

/-- get_picto_data from api.py. -/
def get_picto_data (ctx : Ctx) (campaign : String) (picto_obj : Entry)
    (image_width : Option Int) : Except Err PictoData := do
  let fields := picto_obj.fieldsOf
  let body ←
    if truthyO (dictGet fields "body") then
      (render_rich_text ctx campaign (dictGet fields "body")).map some
    else .ok none
  let image_url ← match dictGet fields "icon" with
    | some (.asset a) => .ok (_get_image_url_opt a image_width)
    | some _ => .error .attrError
    | none => .ok ""
  .ok { component := "picto", heading := dictGet fields "heading",
        body := body, image_url := image_url }

/-- The picto loop of get_picto_layout_data. -/
def pictoLoop (ctx : Ctx) (campaign : String) (image_width : Option Int) :
    List Entry → Except Err (List PictoData)
  | [] => .ok []
  | p :: rest => do
    let d ← get_picto_data ctx campaign p image_width
    let more ← pictoLoop ctx campaign image_width rest
    .ok (d :: more)

/-- get_picto_layout_data from api.py. -/
def get_picto_layout_data (ctx : Ctx) (campaign : String) (entry : Entry) :
    Except Err PictoLayoutData := do
  let fields := entry.fieldsOf
  let column_class := _get_column_class (pyStr (dictGet fields "blocks_per_row"))
  let layout_class := String.intercalate " "
    [_get_width_class (dictGet fields "width"),
     (if column_class ≠ "" then column_class else "3"),
     if fvEqStr (dictGet fields "icon_position") "Side" then "mzp-t-picto-side"
     else "",
     if fvEqStr (dictGet fields "block_alignment") "Center" then
       "mzp-t-picto-center"
     else "",
     _get_theme_class (dictGet fields "theme")]
  let image_width : Option Int :=
    if truthyO (dictGet fields "icon_size") then
      dictGetFOpt PICTO_ICON_SIZE (dictGet fields "icon_size")
    else dictGet PICTO_ICON_SIZE "Large"
  let heading_level ←
    if truthyO (dictGet fields "heading_level") then
      match dictGet fields "heading_level" with
      | some (.str h) => .ok (StrOrInt.s (h.drop 1))
      | _ => .error .typeError
    else .ok (StrOrInt.n 3)
  let pictos ← match dictGet fields "content" with
    | some (.entryList l) => .ok l
    | _ => .error .typeError
  let pictoData ← pictoLoop ctx campaign image_width pictos
  .ok { component := "pictoLayout", layout_class := layout_class,
        heading_level := heading_level, image_width := image_width,
        pictos := pictoData }

/-- get_text_column_data from api.py, parameterized by the column count
its partialmethods fix. -/
def get_text_column_data (ctx : Ctx) (campaign : String) (cols : Int)
    (entry_obj : Entry) : Except Err TextColumnsData := do
  let fields := entry_obj.fieldsOf
  let layout_class := String.intercalate " "
    [_get_width_class (dictGet fields "width"),
     _get_column_class (toString cols),
     _get_theme_class (dictGet fields "theme"),
     if fvEqStr (dictGet fields "block_alignment") "Center" then "mzp-u-center"
     else ""]
  let c1 ← render_rich_text ctx campaign (dictGet fields "body_column_one")
  let content := [c1]
  let content ←
    if cols > 1 then
      (render_rich_text ctx campaign (dictGet fields "body_column_two")).map
        (fun s => content ++ [s])
    else .ok content
  let content ←
    if cols > 2 then
      (render_rich_text ctx campaign (dictGet fields "body_column_three")).map
        (fun s => content ++ [s])
    else .ok content
  let content ←
    if cols > 3 then
      (render_rich_text ctx campaign (dictGet fields "body_column_four")).map
        (fun s => content ++ [s])
    else .ok content
  .ok { component := "textColumns", layout_class := layout_class,
        content := content }

/-! ## The page assembler (ContentfulPage.get_content) -/

/-- The page_info dict get_info_data builds. -/
structure Info where
  title : FVal
  blurb : FVal
  slug : FVal
  lang : FVal
  theme : String
  utm_source : String
  utm_campaign : String
  image : Option String

/-- get_info_data from api.py. -/
def get_info_data (entry_obj : Entry) : Except Err Info := do
  let fields := entry_obj.fieldsOf
  let folder : FVal := dictGetD fields "folder" (.str "")
  let fxInFolder ← pyIn "firefox" folder
  let in_firefox := if fxInFolder then "firefox-" else ""
  let slug : FVal := dictGetD fields "slug" (.str "home")
  let campaign := in_firefox ++ pyStr (some slug)
  let page_type := entry_obj.sysOf.contentType
  let lang : FVal ←
    if page_type == "pageHome" then
      match dictGet fields "name" with
      | some v => .ok v
      | none => .error (.keyError "name")
    else .ok (.str entry_obj.sysOf.locale)
  let image ← match dictGet fields "preview_image" with
    | some (.asset a) => .ok (some ("https:" ++ a.url))
    | some _ => .error .attrError
    | none => .ok none
  .ok { title := dictGetD fields "preview_title" (.str ""),
        blurb := dictGetD fields "preview_blurb" (.str ""),
        slug := slug, lang := lang,
        theme := if fxInFolder then "firefox" else "mozilla",
        utm_source := "www.mozilla.org-" ++ campaign,
        utm_campaign := campaign,
        image := image }

/-- The view-model union the entries list of get_content holds: one
constructor per mapper the content-type registry dispatches to, plus the
text block pageGeneral appends directly. -/
inductive VM where
  | text (d : TextData)
  | hero (d : HeroData)
  | section (d : SectionData)
  | split (d : SplitData)
  | callout (d : CalloutData)
  | cardLayout (d : CardLayoutData)
  | pictoLayout (d : PictoLayoutData)
  | textColumns (d : TextColumnsData)

/-- One row of CONTENT_TYPE_MAP: the processor method name and the CSS
and JS annotation sets (a missing js key is the empty list). -/
structure CTypeInfo where
  proc : String
  css : List String
  js : List String

/-- CONTENT_TYPE_MAP from api.py. -/
def CONTENT_TYPE_MAP : List (String × CTypeInfo) :=
  [("componentHero", ⟨"get_hero_data", ["c-hero"], []⟩),
   ("componentSectionHeading", ⟨"get_section_data", ["c-section-heading"], []⟩),
   ("componentSplitBlock", ⟨"get_split_data", ["c-split"], []⟩),
   ("componentCallout", ⟨"get_callout_data", ["c-call-out"], []⟩),
   ("layout2Cards", ⟨"get_card_layout_data", ["t-card-layout"], ["c-card"]⟩),
   ("layout3Cards", ⟨"get_card_layout_data", ["t-card-layout"], ["c-card"]⟩),
   ("layout4Cards", ⟨"get_card_layout_data", ["t-card-layout"], ["c-card"]⟩),
   ("layout5Cards", ⟨"get_card_layout_data", ["t-card-layout"], ["c-card"]⟩),
   ("layoutPictoBlocks",
     ⟨"get_picto_layout_data", ["c-picto", "t-multi-column"], []⟩),
   ("textOneColumn", ⟨"get_text_column_data_1", ["t-multi-column"], []⟩),
   ("textTwoColumns", ⟨"get_text_column_data_2", ["t-multi-column"], []⟩),
   ("textThreeColumns", ⟨"get_text_column_data_3", ["t-multi-column"], []⟩),
   ("textFourColumns", ⟨"get_text_column_data_4", ["t-multi-column"], []⟩)]

/-- getattr(self, name) applied to an item: the dispatch of proc in
get_content over the method names CONTENT_TYPE_MAP lists. -/
def runProc (ctx : Ctx) (campaign : String) (name : String) (item : Entry) :
    Except Err VM :=
  match name with
  | "get_hero_data" => (get_hero_data ctx campaign item).map VM.hero
  | "get_section_data" => (get_section_data item).map VM.section
  | "get_split_data" => (get_split_data ctx campaign item).map VM.split
  | "get_callout_data" => (get_callout_data ctx campaign item).map VM.callout
  | "get_card_layout_data" =>
    (get_card_layout_data ctx campaign item).map VM.cardLayout
  | "get_picto_layout_data" =>
    (get_picto_layout_data ctx campaign item).map VM.pictoLayout
  | "get_text_column_data_1" =>
    (get_text_column_data ctx campaign 1 item).map VM.textColumns
  | "get_text_column_data_2" =>
    (get_text_column_data ctx campaign 2 item).map VM.textColumns
  | "get_text_column_data_3" =>
    (get_text_column_data ctx campaign 3 item).map VM.textColumns
  | "get_text_column_data_4" =>
    (get_text_column_data ctx campaign 4 item).map VM.textColumns
  | _ => .error .attrError

/-- Python set.update on the insertion-ordered model of the CSS/JS sets:
append the members not yet present (the serving code only consumes the
sets as unordered collections, so the order is a representation choice). -/
def setUpdate (cur new : List String) : List String :=
  new.foldl (fun acc s => if acc.contains s then acc else acc ++ [s]) cur

/-- The accumulating state of the proc closure in get_content: the
entries list and the page_css and page_js sets. -/
def ProcAcc : Type := List VM × List String × List String

/-- proc(item) from get_content: read the content type off the item (an
AttributeError if the item is not an entry), skip it when the registry
does not list it, else run the processor and accumulate entry, CSS and
JS. -/
def procItem (ctx : Ctx) (campaign : String) (acc : ProcAcc) (item : FVal) :
    Except Err ProcAcc :=
  match item with
  | .entry e =>
    match dictGet CONTENT_TYPE_MAP e.sysOf.contentType with
    | none => .ok acc
    | some info => do
      let vm ← runProc ctx campaign info.proc e
      .ok (acc.1 ++ [vm], setUpdate acc.2.1 info.css, setUpdate acc.2.2 info.js)
  | _ => .error .attrError

/-- The pageGeneral loop of get_content over the ordered field items:
component_hero and component_callout go through proc, body through
get_text_data, everything else is passed over. -/
def generalFold (ctx : Ctx) (campaign : String) :
    List (String × FVal) → ProcAcc → Except Err ProcAcc
  | [], acc => .ok acc
  | (key, value) :: rest, acc => do
    let acc ←
      if key == "component_hero" then procItem ctx campaign acc value
      else if key == "body" then
        (get_text_data ctx campaign (some value)).map
          (fun td => (acc.1 ++ [VM.text td], acc.2.1, acc.2.2))
      else if key == "component_callout" then procItem ctx campaign acc value
      else .ok acc
    generalFold ctx campaign rest acc

/-- The content loop of get_content for pageVersatile and pageHome. -/
def contentFold (ctx : Ctx) (campaign : String) :
    List Entry → ProcAcc → Except Err ProcAcc
  | [], acc => .ok acc
  | e :: rest, acc => do
    let acc ← procItem ctx campaign acc (.entry e)
    contentFold ctx campaign rest acc

/-- The output structure of get_content. -/
structure PageOut where
  page_type : String
  page_css : List String
  page_js : List String
  info : Info
  entries : List VM

/-- get_content from api.py: resolve the content root (the page itself
for a page content type, the referenced entry for the homepage connector,
an unrecognized-page-type ValueError otherwise), derive page_info, then
extract and dispatch the content items per page type. -/
def getContent (ctx : Ctx) (page : Entry) : Except Err PageOut := do
  let entry_type := page.sysOf.contentType
  let entryObjV : FVal ←
    if strStartsWith entry_type "page" then .ok (.entry page)
    else if entry_type == "connectHomepage" then
      match dictGet page.fieldsOf "entry" with
      | some v => .ok v
      | none => .error (.keyError "entry")
    else .error (.unrecognizedPageType entry_type)
  let entry_obj ← match entryObjV with
    | .entry e => .ok e
    | _ => .error .attrError
  let info ← get_info_data entry_obj
  let campaign := info.utm_campaign
  let page_type := entry_obj.sysOf.contentType
  let fields := entry_obj.fieldsOf
  let acc0 : ProcAcc := ([], [], [])
  let acc ←
    if page_type == "pageGeneral" then
      generalFold ctx campaign fields acc0
    else if page_type == "pageVersatile" || page_type == "pageHome" then
      match dictGet fields "content" with
      | none => .ok acc0
      | some v =>
        if v.truthy then
          match v with
          | .entryList l => contentFold ctx campaign l acc0
          | _ => .error .typeError
        else .ok acc0
    else .ok acc0
  .ok { page_type := page_type, page_css := acc.2.1, page_js := acc.2.2,
        info := info, entries := acc.1 }

/-! ## Entry Sync (management/commands/update_contentful.py)
The persisted store is a list of snapshots, the CMS listing and raw-fetch
capabilities and the hash function are parameters (the fetch returns the
raw JSON payload whose shape only the hash and the language extraction
inspect, so the payload type is a parameter too). -/

/-- A persisted ContentfulEntry row. -/
structure Snapshot (α : Type) where
  contentful_id : String
  content_type : String
  language : String
  data_hash : String
  data : α

/-- ContentfulEntry.objects.get(contentful_id=page_id): the first row
with the id (contentful_id is unique). -/
def storeGet {α : Type} : List (Snapshot α) → String → Option (Snapshot α)
  | [], _ => none
  | s :: rest, page_id =>
    if s.contentful_id == page_id then some s else storeGet rest page_id

/-- Overwrite of the row with the id by the updated row. -/
def storePut {α : Type} : List (Snapshot α) → String → Snapshot α →
    List (Snapshot α)
  | [], _, _ => []
  | s :: rest, page_id, row =>
    (if s.contentful_id == page_id then row else s) :: storePut rest page_id row

/-- The collaborators of Command.refresh: the hash of a raw payload
(data_hash in the source: canonical JSON then sha256), the language
extraction fields the command reads off the payload, the per-id raw
fetch, and the per-content-type id listing. -/
structure SyncEnv (α : Type) where
  hashFn : α → String
  nameOf : α → String
  localeOf : α → String
  fetchData : String → α
  listIds : String → List String

/-- The (ctype, id) work list refresh builds before its main loop. -/
def contentIds {α : Type} (env : SyncEnv α) (ctypes : List String) :
    List (String × String) :=
  ctypes.flatMap (fun ct => (env.listIds ct).map (fun id => (ct, id)))

/-- The overwrite of an existing row by the refresh loop: language,
data_hash and data set to the values derived from the fetched payload. -/
def updRow {α : Type} (env : SyncEnv α) (p : String × String)
    (obj : Snapshot α) : Snapshot α :=
  { obj with
    language :=
      if p.1 == "connectHomepage" then env.nameOf (env.fetchData p.2)
      else env.localeOf (env.fetchData p.2),
    data_hash := env.hashFn (env.fetchData p.2),
    data := env.fetchData p.2 }

/-- One iteration of the refresh loop: fetch the payload, hash it, derive
the language (the name field for the homepage connector, the sys locale
otherwise), then insert a new row counted as added, overwrite on a hash
change or under force counted as updated, or do nothing. -/
def refreshStep {α : Type} (env : SyncEnv α) (force : Bool)
    (st : List (Snapshot α) × Nat × Nat) (p : String × String) :
    List (Snapshot α) × Nat × Nat :=
  let store := st.1
  let page := env.fetchData p.2
  let hash := env.hashFn page
  let language :=
    if p.1 == "connectHomepage" then env.nameOf page else env.localeOf page
  match storeGet store p.2 with
  | none =>
    (store ++ [{ contentful_id := p.2, content_type := p.1,
                 language := language, data_hash := hash, data := page }],
     st.2.1 + 1, st.2.2)
  | some obj =>
    if force || hash ≠ obj.data_hash then
      (storePut store p.2 (updRow env p obj), st.2.1, st.2.2 + 1)
    else st

/-- Command.refresh: the full pass over the work list, returning the
store with the added and updated counts. -/
def refresh {α : Type} (env : SyncEnv α) (ctypes : List String)
    (force : Bool) (store : List (Snapshot α)) :
    List (Snapshot α) × Nat × Nat :=
  (contentIds env ctypes).foldl (refreshStep env force) (store, 0, 0)

/-! ## Shared helpers and example data for the claim theorems -/

/-- Concatenation of a list of strings in order. -/
def joinAll : List String → String
  | [] => ""
  | v :: rest => v ++ joinAll rest

/-- The number of direct text children in a content list. -/
def countTextChildren (cs : List Node) : Nat :=
  (cs.filter (fun c => c.nodeTypeOf == "text")).length

/-- The flattened plain-text label of a node as §4.2 of the spec words
it: the concatenation of all descendant text leaves in document order
(a reference definition, for comparison with _make_plain_text). -/
def flattenTextLeaves : Node → String
  | .text v => v
  | .node _ _ _ cs => flattenList cs
where flattenList : List Node → String
  | [] => ""
  | c :: rest => flattenTextLeaves c ++ flattenList rest

/-- A context whose fetches fail and whose template renderer yields the
empty string, for concrete evaluations that reach neither. -/
def ctxEx : Ctx :=
  { fetchEntry := fun _ => .error .attrError,
    fetchAsset := fun _ => .error .attrError,
    renderToString := fun _ => "" }

/-- Splitting an Except bind that produced a value. -/
theorem exceptBindOk {β γ : Type} {x : Except Err β} {f : β → Except Err γ}
    {d : γ} (h : (x >>= f) = .ok d) : ∃ b, x = .ok b ∧ f b = .ok d := by
  cases x with
  | error e => simp [Bind.bind, Except.bind] at h
  | ok b => exact ⟨b, rfl, by simpa [Bind.bind, Except.bind] using h⟩

/-- Rendering a pure text-leaf list yields the concatenated values. -/
theorem renderList_texts (ctx : Ctx) (campaign : String) (vs : List String) :
    renderList ctx campaign (vs.map Node.text) = .ok (joinAll vs) := by
  induction vs with
  | nil => rfl
  | cons v rest ih =>
    simp [renderList, render, ih, joinAll, Bind.bind, Except.bind]

/-- The plain-text flattening over a pure text-leaf list. -/
theorem plainOfList_texts (vs : List String) :
    plainOfList (vs.map Node.text) = .ok (joinAll vs) := by
  induction vs with
  | nil => rfl
  | cons v rest ih => simp [plainOfList, ih, joinAll, Except.map]

/-- On a pure text-leaf list the source flattening agrees with the
spec-worded descendant flattening. -/
theorem flatten_texts (vs : List String) :
    flattenTextLeaves.flattenList (vs.map Node.text) = joinAll vs := by
  induction vs with
  | nil => rfl
  | cons v rest ih => simp [flattenTextLeaves.flattenList, flattenTextLeaves, ih, joinAll]

/-! ## Claim C6: unknown style-table keys -/

/-- Claim C6: for every style-table resolver (theme, width, aspect-ratio,
column-count, layout, product) and every key outside its enumeration, the
table resolves to the empty-string fragment and the resolver returns
totally (the translated functions are total, so no error is possible):
the output is the empty string for the resolvers without a fixed prefix
and the bare prefix for the prefixed ones. -/
theorem c6_style_tables (k : String) :
    (dictGet THEME_CLASS k = none → _get_theme_class (some (.str k)) = "") ∧
    (dictGet WIDTHS k = none → k ≠ "" →
      _get_width_class (some (.str k)) = "mzp-t-content-" ∧
      _get_abbr_from_width k = "") ∧
    (dictGet ASPECT_RATIOS k = none →
      _get_aspect_ratio_class (.str k) = "mzp-has-aspect-") ∧
    (dictGet COLUMN_CLASS k = none → _get_column_class k = "") ∧
    (dictGet LAYOUT_CLASS k = none → _get_layout_class k = "") ∧
    (dictGet PRODUCT_THEMES k = none →
      _get_product_class (some (.str k)) = "mzp-t-product-") := by
  refine ⟨fun h => ?_, fun h hk => ⟨?_, ?_⟩, fun h => ?_, fun h => ?_,
    fun h => ?_, fun h => ?_⟩ <;>
    simp_all [_get_theme_class, _get_width_class, _get_abbr_from_width,
      _get_aspect_ratio_class, _get_column_class, _get_layout_class,
      _get_product_class, dictGetF, dictGetD, truthyO, FVal.truthy]

/-- Witness for C6 at the concrete unknown key bogus. -/
theorem c6_style_tables_witness :
    _get_theme_class (some (.str "bogus")) = "" ∧
    _get_width_class (some (.str "bogus")) = "mzp-t-content-" ∧
    _get_abbr_from_width "bogus" = "" ∧
    _get_aspect_ratio_class (.str "bogus") = "mzp-has-aspect-" ∧
    _get_column_class "bogus" = "" ∧
    _get_layout_class "bogus" = "" ∧
    _get_product_class (some (.str "bogus")) = "mzp-t-product-" :=
  ⟨(c6_style_tables "bogus").1 rfl,
   ((c6_style_tables "bogus").2.1 rfl (by decide)).1,
   ((c6_style_tables "bogus").2.1 rfl (by decide)).2,
   (c6_style_tables "bogus").2.2.1 rfl,
   (c6_style_tables "bogus").2.2.2.1 rfl,
   (c6_style_tables "bogus").2.2.2.2.1 rfl,
   (c6_style_tables "bogus").2.2.2.2.2 rfl⟩

/-! ## Claim C9: youtube-id extraction is not total -/

/-- A card entry whose you_tube URL carries no v query parameter. -/
def ytNoVCard : Entry :=
  .mk ⟨"yt1", "componentCard", "en-US"⟩
    [("heading", .str "Watch"),
     ("you_tube", .str "https://www.youtube.com/watch?list=abc123")]

/-- Claim C9: get_card_data on a card entry bearing a you_tube field
whose URL has no v query parameter raises KeyError (for the key v)
instead of returning a view-model: the youtube-id extraction is not
total over card entries with a you_tube field. -/
theorem c9_youtube_keyerror :
    get_card_data ctxEx "campaign" (some (.entry ytNoVCard)) none =
      .error (.keyError "v") := rfl

/-! ## Claim C2: paragraph rendering -/

/-- Claim C2 (code bug): a paragraph whose sole content is a single empty
text leaf is NOT suppressed to the empty string; the _only_child guard
short-circuits (an empty text child never disqualifies the only-child
check for hyperlink, and zero hyperlinks count as at most one), so the
cta-link branch fires first and the renderer emits an empty cta-link
paragraph, against the suppress-empty-paragraphs branch and its comment
in the source. The non-empty single-leaf half of the claim does hold:
this theorem records both outputs at concrete inputs. -/
theorem c2_empty_paragraph_code_bug :
    render ctxEx "campaign" (.node "paragraph" "" "" [.text ""]) =
      .ok "<p class=\"mzp-c-cta-link\"></p>" ∧
    render ctxEx "campaign" (.node "paragraph" "" "" [.text "hello"]) =
      .ok "<p>hello</p>" ∧
    render ctxEx "campaign"
      (.node "paragraph" "" ""
        [.text "", .node "hyperlink" "https://www.mozilla.org/x" ""
          [.text "go"], .text ""]) =
      .ok "<p class=\"mzp-c-cta-link\"><a href=\"https://www.mozilla.org/x\">go</a></p>" :=
  ⟨rfl, rfl, rfl⟩

/-! ## Claim C10: picto layout icon size -/

/-- When get_picto_layout_data succeeds, the image_width slot is exactly
the icon-size resolution expression of the source. -/
theorem get_picto_layout_image_width (ctx : Ctx) (campaign : String)
    (e : Entry) (d : PictoLayoutData)
    (hok : get_picto_layout_data ctx campaign e = .ok d) :
    d.image_width =
      (if truthyO (dictGet e.fieldsOf "icon_size") then
        dictGetFOpt PICTO_ICON_SIZE (dictGet e.fieldsOf "icon_size")
      else dictGet PICTO_ICON_SIZE "Large") := by
  simp only [get_picto_layout_data, Bind.bind, Except.bind] at hok
  repeat' split at hok
  all_goals
    first
      | exact Except.noConfusion hok
      | (simp only [Except.ok.injEq] at hok; subst hok; simp_all)

/-- Claim C10: for a picto layout entry whose icon_size field holds a
non-empty string outside the five enumerated size names,
get_picto_layout_data sets image_width to None, not the 64-pixel Large
default; the 64 default applies when the field is absent or empty. -/
theorem c10_picto_icon_size (ctx : Ctx) (campaign : String) (e : Entry)
    (s : String) (d : PictoLayoutData) :
    (dictGet e.fieldsOf "icon_size" = some (.str s) → s ≠ "" →
      dictGet PICTO_ICON_SIZE s = none →
      get_picto_layout_data ctx campaign e = .ok d → d.image_width = none) ∧
    ((dictGet e.fieldsOf "icon_size" = none ∨
      dictGet e.fieldsOf "icon_size" = some (.str "")) →
      get_picto_layout_data ctx campaign e = .ok d →
      d.image_width = some 64) := by
  constructor
  · intro h1 h2 h3 hok
    rw [get_picto_layout_image_width ctx campaign e d hok, h1]
    simp [truthyO, FVal.truthy, h2, dictGetFOpt, h3]
  · intro h1 hok
    rw [get_picto_layout_image_width ctx campaign e d hok]
    rcases h1 with h1 | h1 <;> rw [h1] <;> simp [truthyO, FVal.truthy] <;> rfl

/-- A picto layout entry with an icon_size outside the enumeration. -/
def pictoEx1 : Entry :=
  .mk ⟨"pl1", "layoutPictoBlocks", "en-US"⟩
    [("icon_size", .str "Gigantic"), ("content", .entryList [])]

/-- A picto layout entry with no icon_size field. -/
def pictoEx2 : Entry :=
  .mk ⟨"pl2", "layoutPictoBlocks", "en-US"⟩ [("content", .entryList [])]

/-- The computed view-model of pictoEx1. -/
def pictoExData1 : PictoLayoutData :=
  (get_picto_layout_data ctxEx "c" pictoEx1).toOption.get (by rfl)

/-- The computed view-model of pictoEx2. -/
def pictoExData2 : PictoLayoutData :=
  (get_picto_layout_data ctxEx "c" pictoEx2).toOption.get (by rfl)

/-- Witness for C10 at the concrete entries pictoEx1 and pictoEx2. -/
theorem c10_picto_icon_size_witness :
    dictGet pictoEx1.fieldsOf "icon_size" = some (.str "Gigantic") ∧
    dictGet PICTO_ICON_SIZE "Gigantic" = none ∧
    pictoExData1.image_width = none ∧
    dictGet pictoEx2.fieldsOf "icon_size" = none ∧
    pictoExData2.image_width = some 64 :=
  ⟨rfl, rfl,
   (c10_picto_icon_size ctxEx "c" pictoEx1 "Gigantic" pictoExData1).1 rfl
     (by decide) rfl rfl,
   rfl,
   (c10_picto_icon_size ctxEx "c" pictoEx2 "" pictoExData2).2 (Or.inl rfl) rfl⟩

/-! ## Claim C3: list-item rendering -/

/-- For the text node type, the early-exit only-child loop decides
whether at most one direct text child exists counting the matches already
found: the non-matching branch can never see a non-empty text child (a
text child is the match), so only the two-matches exit produces false. -/
theorem onlyChildGo_text (cs : List Node) : ∀ found : Nat, found ≤ 1 →
    onlyChildGo "text" cs found = decide (found + countTextChildren cs ≤ 1) := by
  induction cs with
  | nil =>
    intro found hf
    simp only [onlyChildGo, countTextChildren, List.filter_nil,
      List.length_nil, Nat.add_zero]
    symm
    rw [decide_eq_true_eq]
    omega
  | cons c rest ih =>
    intro found hf
    by_cases h : c.nodeTypeOf = "text"
    · obtain rfl | rfl : found = 0 ∨ found = 1 := by omega
      · rw [show onlyChildGo "text" (c :: rest) 0 = onlyChildGo "text" rest 1 by
          simp [onlyChildGo, h]]
        rw [ih 1 (by omega)]
        simp only [decide_eq_decide, countTextChildren, List.filter_cons, h]
        simp
      · rw [show onlyChildGo "text" (c :: rest) 1 = false by
          simp [onlyChildGo, h]]
        symm
        rw [decide_eq_false_iff_not]
        simp only [countTextChildren, List.filter_cons, h]
        simp
    · have hb : (c.nodeTypeOf == "text") = false := by simp [h]
      have hcount : countTextChildren (c :: rest) = countTextChildren rest := by
        simp [countTextChildren, List.filter_cons, hb]
      rw [hcount]
      obtain rfl | rfl : found = 0 ∨ found = 1 := by omega
      · rw [show onlyChildGo "text" (c :: rest) 0 = onlyChildGo "text" rest 0 by
          simp [onlyChildGo, h, hb]]
        exact ih 0 (by omega)
      · rw [show onlyChildGo "text" (c :: rest) 1 = onlyChildGo "text" rest 1 by
          simp [onlyChildGo, h, hb]]
        exact ih 1 (by omega)


/-- Counterexample to claim C3 as stated: a list-item whose single child
is a text leaf does not render that content inside a li element; the
shortcut branch reads the content key of the text leaf, a KeyError. -/
theorem c3_counterexample :
    render ctxEx "campaign" (.node "list-item" "" "" [.text "a"]) =
      .error (.keyError "content") := rfl

/-- Claim C3, amended: a list-item whose single child is a block node (a
paragraph in CMS documents) renders the children of that child directly inside
li with no nested p tag; a list-item with two or more direct text
children renders the full nested content of all its children inside li.
A list-item whose first child is a text leaf errors instead (see the
counterexample), because at most one direct text child routes the
renderer through the shortcut branch, which re-renders the content of the
first child and a text leaf has none. -/
theorem c3_list_item_amended (ctx : Ctx) (campaign : String) :
    (∀ (u g ct cu cg : String) (ccs : List Node),
      render ctx campaign (.node "list-item" u g [.node ct cu cg ccs]) =
        (renderList ctx campaign ccs).map (fun s => "<li>" ++ s ++ "</li>")) ∧
    (∀ (u g : String) (cs : List Node), 2 ≤ countTextChildren cs →
      render ctx campaign (.node "list-item" u g cs) =
        (renderList ctx campaign cs).map (fun s => "<li>" ++ s ++ "</li>")) := by
  constructor
  · intro u g ct cu cg ccs
    have hoc : onlyChildGo "text" [Node.node ct cu cg ccs] 0 = true := by
      rw [onlyChildGo_text _ 0 (by omega)]
      simp only [countTextChildren, List.filter_cons, List.filter_nil]
      split <;> simp
    simp [render, renderNode, renderInner, _only_child, Node.contentOf,
      Bind.bind, Except.bind, hoc]
  · intro u g cs hcount
    have hoc : onlyChildGo "text" cs 0 = false := by
      rw [onlyChildGo_text _ 0 (by omega)]
      simp only [Nat.zero_add, decide_eq_false_iff_not]
      omega
    match cs, hcount with
    | .text v :: rest, _ =>
      simp [render, renderNode, renderInner, _only_child, Node.contentOf,
        Bind.bind, Except.bind, hoc]
    | .node t2 u2 g2 cc :: rest, _ =>
      simp [render, renderNode, renderInner, _only_child, Node.contentOf,
        Bind.bind, Except.bind, hoc]

/-- Witness for the amended C3 at concrete list items. -/
theorem c3_list_item_witness :
    render ctxEx "c" (.node "list-item" "" ""
        [.node "paragraph" "" "" [.text "a"]]) = .ok "<li>a</li>" ∧
    2 ≤ countTextChildren [Node.text "a", Node.text "b"] ∧
    render ctxEx "c" (.node "list-item" "" "" [.text "a", .text "b"]) =
      .ok "<li>ab</li>" := by
  refine ⟨?_, by decide, ?_⟩
  · rw [(c3_list_item_amended ctxEx "c").1 "" "" "paragraph" "" "" [Node.text "a"]]
    rfl
  · rw [(c3_list_item_amended ctxEx "c").2 "" "" [Node.text "a", Node.text "b"]
      (by decide)]
    rfl

/-! ## Claims C1 and C7: hyperlink rendering -/

/-- The analytics flattening of a hyperlink node whose children are all
text leaves is the concatenation of their values. -/
theorem make_plain_texts (uri tid : String) (vs : List String) :
    _make_plain_text (.node "hyperlink" uri tid (vs.map Node.text)) =
      .ok (joinAll vs) := by
  simp [_make_plain_text, Node.contentOf, plainOfList_texts, Bind.bind,
    Except.bind]

/-- Counterexample to claim C1 as stated: this hyperlink points at a
mozilla.org host other than www.mozilla.org with no utm_ parameter, yet
the renderer appends nothing at all, because any non-text child makes the
analytics flattening of the same link read the absent value key, a
KeyError; so no anchor with the three UTM parameters is produced. -/
theorem c1_counterexample :
    render ctxEx "fx" (.node "hyperlink" "https://support.mozilla.org/x" ""
      [.node "paragraph" "" "" [.text "y"]]) = .error (.keyError "value") := rfl

/-- Claim C1, amended: restricted to hyperlink nodes all of whose
children are text leaves (the shape CMS hyperlinks have; any other child
raises KeyError as the counterexample shows). For a link whose host
contains mozilla.org but is not www.mozilla.org: if the query string does
not already contain utm_, the rendered href appends, after a question
mark or ampersand, exactly the three parameters utm_source=www.mozilla.org,
utm_medium=referral and utm_campaign=(the campaign of the page); if the
query already contains utm_, nothing is appended to the URL. -/
theorem c1_utm_amended (ctx : Ctx) (campaign uri tid : String)
    (vs : List String) :
    strContains (urlparse uri).netloc "mozilla.org" = true →
    (urlparse uri).netloc ≠ "www.mozilla.org" →
    ((strContains (urlparse uri).query "utm_" = false →
      render ctx campaign (.node "hyperlink" uri tid (vs.map Node.text)) =
        .ok ("<a href=\"" ++ urlunparse (urlparse uri) ++
          ((if (urlparse uri).query == "" then "?" else "&") ++
            urlencode [("utm_source", "www.mozilla.org"),
                       ("utm_medium", "referral"),
                       ("utm_campaign", campaign)]) ++ "\"" ++
          (" data-cta-type=\"link\" data-cta-text=\"" ++ joinAll vs ++ "\"") ++
          " rel=\"external noopener\"" ++ ">" ++ joinAll vs ++ "</a>")) ∧
     (strContains (urlparse uri).query "utm_" = true →
      render ctx campaign (.node "hyperlink" uri tid (vs.map Node.text)) =
        .ok ("<a href=\"" ++ urlunparse (urlparse uri) ++ "" ++ "\"" ++
          (" data-cta-type=\"link\" data-cta-text=\"" ++ joinAll vs ++ "\"") ++
          " rel=\"external noopener\"" ++ ">" ++ joinAll vs ++ "</a>"))) := by
  intro hmoz hne
  constructor
  · intro hutm
    have href : linkRef (urlparse uri) campaign =
        (if (urlparse uri).query == "" then "?" else "&") ++
          urlencode [("utm_source", "www.mozilla.org"),
                     ("utm_medium", "referral"),
                     ("utm_campaign", campaign)] := by
      simp [linkRef, hmoz, hne, hutm]
    simp [render, renderNode, href, make_plain_texts, renderList_texts, hne,
      Bind.bind, Except.bind, Except.map]
  · intro hutm
    have href : linkRef (urlparse uri) campaign = "" := by
      simp [linkRef, hmoz, hne, hutm]
    simp [render, renderNode, href, make_plain_texts, renderList_texts, hne,
      Bind.bind, Except.bind, Except.map]

/-- Witness for the amended C1 at a support.mozilla.org link with and
without an existing utm_ parameter, with the rendered anchors spelled
out. -/
theorem c1_utm_amended_witness :
    strContains (urlparse "https://support.mozilla.org/kb?x=1").netloc
        "mozilla.org" = true ∧
    (urlparse "https://support.mozilla.org/kb?x=1").netloc ≠ "www.mozilla.org" ∧
    render ctxEx "firefox-sync" (.node "hyperlink"
        "https://support.mozilla.org/kb?x=1" "" (["help"].map Node.text)) =
      .ok "<a href=\"https://support.mozilla.org/kb?x=1&utm_source=www.mozilla.org&utm_medium=referral&utm_campaign=firefox-sync\" data-cta-type=\"link\" data-cta-text=\"help\" rel=\"external noopener\">help</a>" ∧
    render ctxEx "firefox-sync" (.node "hyperlink"
        "https://support.mozilla.org/kb?utm_medium=a" "" (["help"].map Node.text)) =
      .ok "<a href=\"https://support.mozilla.org/kb?utm_medium=a\" data-cta-type=\"link\" data-cta-text=\"help\" rel=\"external noopener\">help</a>" := by
  refine ⟨rfl, by decide, ?_, ?_⟩
  · exact ((c1_utm_amended ctxEx "firefox-sync"
      "https://support.mozilla.org/kb?x=1" "" ["help"]) rfl (by decide)).1 rfl
  · exact ((c1_utm_amended ctxEx "firefox-sync"
      "https://support.mozilla.org/kb?utm_medium=a" "" ["help"]) rfl
        (by decide)).2 rfl

/-- Counterexample to claim C7 as stated: an external link holding a
non-text child renders no anchor at all (the flattening reads the absent
value key of the block child, a KeyError), instead of an anchor whose
data attribute carries the flattened descendant text. -/
theorem c7_counterexample :
    render ctxEx "fx" (.node "hyperlink" "https://example.com/" ""
      [.node "paragraph" "" "" [.text "hi"]]) =
      .error (.keyError "value") := rfl

/-- Claim C7, amended: restricted to hyperlink nodes all of whose
children are text leaves (any other child raises KeyError as the
counterexample shows). For every link whose host differs from
www.mozilla.org the anchor carries rel external noopener and a
data-cta-text attribute holding the concatenated child values, which on
this shape equals the spec-worded flattening of all descendant text
leaves in document order. -/
theorem c7_external_link_amended (ctx : Ctx) (campaign uri tid : String)
    (vs : List String) :
    (urlparse uri).netloc ≠ "www.mozilla.org" →
    (render ctx campaign (.node "hyperlink" uri tid (vs.map Node.text)) =
      .ok ("<a href=\"" ++ urlunparse (urlparse uri) ++
        linkRef (urlparse uri) campaign ++ "\"" ++
        (" data-cta-type=\"link\" data-cta-text=\"" ++ joinAll vs ++ "\"") ++
        " rel=\"external noopener\"" ++ ">" ++ joinAll vs ++ "</a>") ∧
     joinAll vs =
       flattenTextLeaves (.node "hyperlink" uri tid (vs.map Node.text))) := by
  intro hne
  constructor
  · simp [render, renderNode, make_plain_texts, renderList_texts, hne,
      Bind.bind, Except.bind, Except.map]
  · simp [flattenTextLeaves, flatten_texts]

/-- Witness for the amended C7 at a link to example.com. -/
theorem c7_external_link_amended_witness :
    (urlparse "https://example.com/page").netloc ≠ "www.mozilla.org" ∧
    render ctxEx "c" (.node "hyperlink" "https://example.com/page" ""
        (["Click", " me"].map Node.text)) =
      .ok "<a href=\"https://example.com/page\" data-cta-type=\"link\" data-cta-text=\"Click me\" rel=\"external noopener\">Click me</a>" ∧
    joinAll ["Click", " me"] =
      flattenTextLeaves (.node "hyperlink" "https://example.com/page" ""
        (["Click", " me"].map Node.text)) := by
  refine ⟨by decide, ?_, ?_⟩
  · exact (c7_external_link_amended ctxEx "c" "https://example.com/page" ""
      ["Click", " me"] (by decide)).1
  · exact (c7_external_link_amended ctxEx "c" "https://example.com/page" ""
      ["Click", " me"] (by decide)).2

/-! ## Claim C4: 5-card layout -/
/-- An example asset for a regular card. -/
def assetEx1 : Asset := ⟨"//images.ctf.net/a.png", "A"⟩
/-- An example asset for a large card. -/
def assetEx2 : Asset := ⟨"//images.ctf.net/big.png", "B"⟩
/-- An example card entry bearing an image. -/
def cardEx1 : Entry :=
  .mk ⟨"c1", "componentCard", "en-US"⟩
    [("heading", .str "H1"), ("image", .asset assetEx1)]
/-- An example card entry without an image. -/
def cardEx2 : Entry :=
  .mk ⟨"c2", "componentCard", "en-US"⟩ [("heading", .str "H2")]
/-- An example large-card entry bearing an image. -/
def largeCardEx : Entry :=
  .mk ⟨"lc", "componentLargeCard", "en-US"⟩
    [("card", .entry cardEx1), ("image", .asset assetEx2)]
/-- An example large-card entry without an image. -/
def largeCardNoImgEx : Entry :=
  .mk ⟨"lc2", "componentLargeCard", "en-US"⟩ [("card", .entry cardEx1)]
/-- An example 5-card layout whose large card has an image. -/
def layout5Ex : Entry :=
  .mk ⟨"l5", "layout5Cards", "en-US"⟩
    [("aspect_ratio", .str "3:2"), ("large_card", .entry largeCardEx),
     ("content", .entryList [cardEx1, cardEx2])]
/-- An example 5-card layout whose large card has no image. -/
def layout5NoImgEx : Entry :=
  .mk ⟨"l5b", "layout5Cards", "en-US"⟩
    [("aspect_ratio", .str "3:2"), ("large_card", .entry largeCardNoImgEx),
     ("content", .entryList [cardEx1, cardEx2])]
/-- The computed view-model of layout5Ex. -/
def cardLayoutExData : CardLayoutData :=
  (get_card_layout_data ctxEx "c" layout5Ex).toOption.get (by rfl)
/-- The second card emitted for layout5Ex. -/
def secondCardEx : CardData := (cardLayoutExData.cards.get? 1).get (by rfl)
/-- The third card emitted for layout5Ex. -/
def thirdCardEx : CardData := (cardLayoutExData.cards.get? 2).get (by rfl)

/-- Counterexample to claim C4 as stated: in this 5-card layout the
large-card entry carries no image field, so the overwrite in
get_large_card_data is skipped and the first emitted card keeps
component card, not large_card. -/
theorem c4_counterexample :
    (get_card_layout_data ctxEx "c" layout5NoImgEx).map
      (fun d => d.cards.map CardData.component) =
      .ok ["card", "card", "card"] := rfl
/-- The card loop of get_card_layout_data: position 0 is framed 1:1 when
it follows the large card, every later position uses the layout aspect
ratio. -/
theorem cardLoop_spec (ctx : Ctx) (campaign : String) (ar : Option FVal) :
    ∀ (cards : List Entry) (b : Bool) (rest : List CardData),
    cardLoop ctx campaign ar b cards = .ok rest →
    rest.length = cards.length ∧
    (∀ i c2 src, rest.get? i = some c2 → cards.get? i = some src →
      get_card_data ctx campaign (some (.entry src))
        (if b && i == 0 then some (FVal.str "1:1") else ar) = .ok c2) := by
  intro cards
  induction cards with
  | nil =>
    intro b rest hok
    simp only [cardLoop, Except.ok.injEq] at hok
    subst hok
    exact ⟨rfl, by intro i c2 src h1 h2; simp at h1⟩
  | cons c cs ih =>
    intro b rest hok
    simp only [cardLoop, Bind.bind, Except.bind] at hok
    obtain ⟨cd, hcd, hok⟩ := exceptBindOk (by exact hok)
    obtain ⟨more, hmore, hok⟩ := exceptBindOk hok
    simp only [Except.ok.injEq] at hok
    subst hok
    obtain ⟨hlen, hidx⟩ := ih false more hmore
    refine ⟨by simp [hlen], ?_⟩
    intro i c2 src h1 h2
    cases i with
    | zero =>
      simp only [List.get?] at h1 h2
      cases h1; cases h2
      simpa using hcd
    | succ j =>
      simp only [List.get?] at h1 h2
      have := hidx j c2 src h1 h2
      simpa using this

/-- Claim C4, amended: for a 5-card layout whose large-card entry bears
an image field (the counterexample shows the component overwrite is
skipped otherwise), the first emitted card has component large_card with
both image URLs framed by _get_card_image_url at width 1860 and aspect
16:9; the card immediately after it is exactly get_card_data at aspect
1:1 regardless of the declared aspect_ratio field; and every later card
is exactly get_card_data at the declared aspect_ratio field value. -/
theorem c4_card_layout_amended (ctx : Ctx) (campaign : String) (e l : Entry)
    (a : Asset) (cards : List Entry) :
    e.sysOf.contentType = "layout5Cards" →
    dictGet e.fieldsOf "large_card" = some (.entry l) →
    dictGet l.fieldsOf "image" = some (.asset a) →
    dictGet e.fieldsOf "content" = some (.entryList cards) →
    ∀ d, get_card_layout_data ctx campaign e = .ok d →
      d.cards.length = cards.length + 1 ∧
      d.cards.head?.map CardData.component = some "large_card" ∧
      d.cards.head?.map CardData.image_url =
        some (_get_card_image_url a 1860 (.str "16:9")) ∧
      d.cards.head?.map CardData.highres_image_url =
        some (_get_card_image_url a 1860 (.str "16:9")) ∧
      (∀ i c2 src, d.cards.get? (i + 1) = some c2 → cards.get? i = some src →
        get_card_data ctx campaign (some (.entry src))
          (if i == 0 then some (.str "1:1")
           else dictGet e.fieldsOf "aspect_ratio") = .ok c2) := by
  intro hType hL hImg hContent d hok
  simp only [get_card_layout_data, hType, hL, hContent, Bind.bind,
    Except.bind] at hok
  simp only [beq_self_eq_true, if_true] at hok
  cases hlc : get_large_card_data ctx campaign (some (.entry l))
      (dictGet l.fieldsOf "card") with
  | error err => rw [hlc] at hok; exact Except.noConfusion hok
  | ok lc =>
    rw [hlc] at hok
    cases hcl : cardLoop ctx campaign (dictGet e.fieldsOf "aspect_ratio")
        true cards with
    | error err => rw [hcl] at hok; exact Except.noConfusion hok
    | ok rest =>
      rw [hcl] at hok
      simp only [Except.ok.injEq] at hok
      subst hok
      obtain ⟨hlen, hidx⟩ := cardLoop_spec ctx campaign _ cards true rest hcl
      simp only [get_large_card_data, hImg, FVal.truthy, Bind.bind,
        Except.bind, if_true] at hlc
      cases hcb : get_card_data ctx campaign (dictGet l.fieldsOf "card")
          (some (.str "16:9")) with
      | error err => rw [hcb] at hlc; exact Except.noConfusion hlc
      | ok cb =>
        rw [hcb] at hlc
        simp only [Except.ok.injEq] at hlc
        subst hlc
        refine ⟨by simp [hlen], by simp, by simp, by simp, ?_⟩
        intro i c2 src h1 h2
        simp only [List.singleton_append, List.get?] at h1
        have := hidx i c2 src h1 h2
        simpa using this

/-- Witness for the amended C4 at the concrete layout layout5Ex. -/
theorem c4_witness :
    cardLayoutExData.cards.length = 3 ∧
    cardLayoutExData.cards.head?.map CardData.component = some "large_card" ∧
    cardLayoutExData.cards.head?.map CardData.image_url =
      some (_get_card_image_url assetEx2 1860 (.str "16:9")) ∧
    cardLayoutExData.cards.head?.map CardData.highres_image_url =
      some (_get_card_image_url assetEx2 1860 (.str "16:9")) ∧
    get_card_data ctxEx "c" (some (.entry cardEx1)) (some (.str "1:1")) =
      .ok secondCardEx ∧
    get_card_data ctxEx "c" (some (.entry cardEx2)) (some (.str "3:2")) =
      .ok thirdCardEx := by
  have h := c4_card_layout_amended ctxEx "c" layout5Ex largeCardEx assetEx2 [cardEx1, cardEx2]
    rfl rfl rfl rfl cardLayoutExData rfl
  exact ⟨h.1, h.2.1, h.2.2.1, h.2.2.2.1,
    h.2.2.2.2 0 secondCardEx cardEx1 rfl rfl,
    h.2.2.2.2 1 thirdCardEx cardEx2 rfl rfl⟩

/-! ## Claim C5: Entry Sync idempotence -/

/-- A store is synced at an id when it holds a row whose stored hash is
the hash of the payload the fetch returns for that id. -/
def SyncedAt {α : Type} (env : SyncEnv α) (store : List (Snapshot α))
    (id : String) : Prop :=
  ∃ obj, storeGet store id = some obj ∧
    obj.data_hash = env.hashFn (env.fetchData id)

/-- A found row carries the looked-up id. -/
theorem storeGet_id {α : Type} {store : List (Snapshot α)} {id : String}
    {obj : Snapshot α} (h : storeGet store id = some obj) :
    obj.contentful_id = id := by
  induction store with
  | nil => simp [storeGet] at h
  | cons s rest ih =>
    by_cases hs : s.contentful_id = id
    · simp [storeGet, hs] at h
      subst h
      exact hs
    · simp [storeGet, hs] at h
      exact ih h

/-- A successful lookup is stable under appending rows. -/
theorem storeGet_append {α : Type} {store l2 : List (Snapshot α)}
    {id : String} {obj : Snapshot α} (h : storeGet store id = some obj) :
    storeGet (store ++ l2) id = some obj := by
  induction store with
  | nil => simp [storeGet] at h
  | cons s rest ih =>
    by_cases hs : s.contentful_id = id
    · simp_all [storeGet]
    · simp_all [storeGet]

/-- A successful lookup is stable under appending rows. -/
theorem storeGet_append_none {α : Type} {store : List (Snapshot α)}
    {id : String} {row : Snapshot α} (h : storeGet store id = none) :
    storeGet (store ++ [row]) id =
      if row.contentful_id == id then some row else none := by
  induction store with
  | nil => simp [storeGet]
  | cons s rest ih =>
    by_cases hs : s.contentful_id = id
    · simp [storeGet, hs] at h
    · simp_all [storeGet]

/-- Overwriting the row of an id (with a row carrying that id) makes the
lookup return the new row. -/
theorem storeGet_put_self {α : Type} {store : List (Snapshot α)}
    {pid : String} {o row : Snapshot α} (h : storeGet store pid = some o)
    (hrow : row.contentful_id = pid) :
    storeGet (storePut store pid row) pid = some row := by
  induction store with
  | nil => simp [storeGet] at h
  | cons s rest ih =>
    by_cases hs : s.contentful_id = pid
    · simp [storeGet, storePut, hs, hrow]
    · simp [storeGet, storePut, hs] at h ⊢
      exact ih h

/-- Overwriting the row of another id leaves a lookup unchanged. -/
theorem storeGet_put_ne {α : Type} {store : List (Snapshot α)}
    {pid id : String} {row : Snapshot α} (hne : id ≠ pid)
    (hrow : row.contentful_id = pid) :
    storeGet (storePut store pid row) id = storeGet store id := by
  induction store with
  | nil => simp [storeGet, storePut]
  | cons s rest ih =>
    by_cases hs : s.contentful_id = pid
    · have h2 : ¬ row.contentful_id = id := by
        rw [hrow]; exact fun hh => hne hh.symm
      have h3 : ¬ s.contentful_id = id := by
        rw [hs]; exact fun hh => hne hh.symm
      have h4 : ¬ pid = id := fun hh => hne hh.symm
      simp [storeGet, storePut, hs, h2, h3, h4, ih]
    · simp [storeGet, storePut, hs, ih]

/-- Overwriting the found row of an id by a row with the same id makes
the lookup return the new row. -/
theorem storeGet_put_get_self {α : Type} {store : List (Snapshot α)}
    {pid : String} {o : Snapshot α} (h : storeGet store pid = some o)
    {row : Snapshot α} (hrow : row.contentful_id = o.contentful_id) :
    storeGet (storePut store pid row) pid = some row :=
  storeGet_put_self h (by rw [hrow]; exact storeGet_id h)

/-- Overwriting the found row of another id leaves a lookup unchanged. -/
theorem storeGet_put_get_ne {α : Type} {store : List (Snapshot α)}
    {pid id : String} {o : Snapshot α} (hne : id ≠ pid)
    (h : storeGet store pid = some o) {row : Snapshot α}
    (hrow : row.contentful_id = o.contentful_id) :
    storeGet (storePut store pid row) id = storeGet store id :=
  storeGet_put_ne hne (by rw [hrow]; exact storeGet_id h)

/-- One refresh iteration never unsyncs an id: inserts append, overwrites
store the freshly computed hash, no-ops change nothing. -/
theorem refreshStep_preserves {α : Type} (env : SyncEnv α) (force : Bool)
    (st : List (Snapshot α) × Nat × Nat) (p : String × String) (id : String)
    (h : SyncedAt env st.1 id) :
    SyncedAt env (refreshStep env force st p).1 id := by
  obtain ⟨obj, hobj, hh⟩ := h
  cases hlook : storeGet st.1 p.2 with
  | none =>
    simp only [refreshStep, hlook]
    exact ⟨obj, storeGet_append hobj, hh⟩
  | some o =>
    simp only [refreshStep, hlook]
    by_cases hcond :
        (force || decide (env.hashFn (env.fetchData p.2) ≠ o.data_hash)) = true
    · rw [if_pos hcond]
      by_cases hid : id = p.2
      · subst hid
        rw [hobj] at hlook
        cases hlook
        refine ⟨_, storeGet_put_get_self hobj ?_, ?_⟩ <;> rfl
      · refine ⟨obj, Eq.trans (storeGet_put_get_ne hid hlook ?_) hobj, hh⟩
        rfl
    · rw [if_neg hcond]
      exact ⟨obj, hobj, hh⟩

/-- One refresh iteration syncs its own id: the inserted or overwritten
row stores the hash of the fetched payload, and the no-op case already
had it. -/
theorem refreshStep_establishes {α : Type} (env : SyncEnv α) (force : Bool)
    (st : List (Snapshot α) × Nat × Nat) (p : String × String) :
    SyncedAt env (refreshStep env force st p).1 p.2 := by
  cases hlook : storeGet st.1 p.2 with
  | none =>
    simp only [refreshStep, hlook]
    refine ⟨{ contentful_id := p.2, content_type := p.1,
              language :=
                if p.1 == "connectHomepage" then env.nameOf (env.fetchData p.2)
                else env.localeOf (env.fetchData p.2),
              data_hash := env.hashFn (env.fetchData p.2),
              data := env.fetchData p.2 }, ?_, ?_⟩
    · rw [storeGet_append_none hlook]
      simp
    · rfl
  | some o =>
    simp only [refreshStep, hlook]
    by_cases hcond :
        (force || decide (env.hashFn (env.fetchData p.2) ≠ o.data_hash)) = true
    · rw [if_pos hcond]
      refine ⟨_, storeGet_put_get_self hlook ?_, ?_⟩ <;> rfl
    · rw [if_neg hcond]
      refine ⟨o, hlook, ?_⟩
      simp only [Bool.or_eq_true, decide_eq_true_eq, not_or] at hcond
      exact (not_not.mp hcond.2).symm

/-- The refresh loop keeps every previously synced id synced and syncs
every id it visits. -/
theorem refresh_fold_synced {α : Type} (env : SyncEnv α) (force : Bool) :
    ∀ (ids : List (String × String)) (st : List (Snapshot α) × Nat × Nat),
    (∀ id, SyncedAt env st.1 id →
      SyncedAt env (ids.foldl (refreshStep env force) st).1 id) ∧
    (∀ p ∈ ids, SyncedAt env (ids.foldl (refreshStep env force) st).1 p.2) := by
  intro ids
  induction ids with
  | nil => exact fun st => ⟨fun id h => h, by simp⟩
  | cons p rest ih =>
    intro st
    constructor
    · intro id h
      simp only [List.foldl_cons]
      exact (ih (refreshStep env force st p)).1 id
        (refreshStep_preserves env force st p id h)
    · intro q hq
      simp only [List.foldl_cons]
      rcases List.mem_cons.mp hq with rfl | hq
      · exact (ih (refreshStep env force st q)).1 q.2
          (refreshStep_establishes env force st q)
      · exact (ih (refreshStep env force st p)).2 q hq

/-- With the force flag off, the refresh loop over fully synced ids is
the identity: every iteration finds a matching hash and does nothing. -/
theorem refresh_fold_noop {α : Type} (env : SyncEnv α) :
    ∀ (ids : List (String × String)) (st : List (Snapshot α) × Nat × Nat),
    (∀ p ∈ ids, SyncedAt env st.1 p.2) →
    ids.foldl (refreshStep env false) st = st := by
  intro ids
  induction ids with
  | nil => intro st _; rfl
  | cons p rest ih =>
    intro st hsync
    have hstep : refreshStep env false st p = st := by
      obtain ⟨obj, hobj, hh⟩ := hsync p (by simp)
      simp only [refreshStep, hobj]
      have hcond :
          (false || decide (env.hashFn (env.fetchData p.2) ≠ obj.data_hash)) =
            false := by
        simp [hh]
      rw [hcond]
      simp
    simp only [List.foldl_cons, hstep]
    exact ih st (fun q hq => hsync q (List.mem_cons_of_mem p hq))

/-- With the force flag on, the refresh loop over fully synced ids adds
nothing and counts one update per visited id. -/
theorem refresh_fold_force {α : Type} (env : SyncEnv α) :
    ∀ (ids : List (String × String)) (st : List (Snapshot α) × Nat × Nat),
    (∀ p ∈ ids, SyncedAt env st.1 p.2) →
    (ids.foldl (refreshStep env true) st).2.1 = st.2.1 ∧
    (ids.foldl (refreshStep env true) st).2.2 = st.2.2 + ids.length := by
  intro ids
  induction ids with
  | nil => intro st _; exact ⟨rfl, rfl⟩
  | cons p rest ih =>
    intro st hsync
    obtain ⟨obj, hobj, hh⟩ := hsync p (by simp)
    have hstep1 : (refreshStep env true st p).2.1 = st.2.1 := by
      simp only [refreshStep, hobj]
      simp
    have hstep2 : (refreshStep env true st p).2.2 = st.2.2 + 1 := by
      simp only [refreshStep, hobj]
      simp
    have hsync2 : ∀ q ∈ rest, SyncedAt env (refreshStep env true st p).1 q.2 :=
      fun q hq => refreshStep_preserves env true st p q.2
        (hsync q (List.mem_cons_of_mem p hq))
    have hrest := ih (refreshStep env true st p) hsync2
    simp only [List.foldl_cons]
    refine ⟨?_, ?_⟩
    · rw [hrest.1, hstep1]
    · rw [hrest.2, hstep2]
      simp only [List.length_cons]
      omega

/-- Claim C5: Entry Sync is idempotent. After one refresh run, a second
run with the same upstream (the same listing, fetch and hash functions)
returns the same store with added = 0 and updated = 0, and a forced run
with no upstream changes returns added = 0 and updated = the number of
tracked (content type, id) pairs. The per-entry trichotomy (insert
counted as added, overwrite on hash change or force counted as updated,
else no-op) is the refreshStep definition these runs fold. -/
theorem c5_sync_idempotent {α : Type} (env : SyncEnv α)
    (ctypes : List String) (store0 : List (Snapshot α)) :
    refresh env ctypes false (refresh env ctypes false store0).1 =
      ((refresh env ctypes false store0).1, 0, 0) ∧
    (refresh env ctypes true (refresh env ctypes false store0).1).2.1 = 0 ∧
    (refresh env ctypes true (refresh env ctypes false store0).1).2.2 =
      (contentIds env ctypes).length := by
  have hsynced : ∀ p ∈ contentIds env ctypes,
      SyncedAt env (refresh env ctypes false store0).1 p.2 := by
    have h := (refresh_fold_synced env false (contentIds env ctypes)
      (store0, 0, 0)).2
    exact h
  refine ⟨?_, ?_, ?_⟩
  · exact refresh_fold_noop env (contentIds env ctypes) _ hsynced
  · have h := (refresh_fold_force env (contentIds env ctypes)
      ((refresh env ctypes false store0).1, 0, 0) hsynced).1
    exact h
  · have h := (refresh_fold_force env (contentIds env ctypes)
      ((refresh env ctypes false store0).1, 0, 0) hsynced).2
    simpa using h

/-! ## C8: the only unrecognized-page-type raise is the page-type dispatch
NoUPT states an Except outcome is not the unrecognized-page-type error;
it is threaded through every renderer and mapper to show get_content
raises it exactly at the root content-type check. -/

/-- The page-assembly error discipline of C8: an Except outcome that is
anything but the unrecognized-page-type error (a value, or any of the
other error kinds the module raises). -/
def NoUPT {β : Type} : Except Err β → Prop
  | .error (.unrecognizedPageType _) => False
  | _ => True

/-- Binding preserves the discipline when both stages satisfy it. -/
theorem NoUPT.bind {β γ : Type} {x : Except Err β} {f : β → Except Err γ}
    (hx : NoUPT x) (hf : ∀ b, NoUPT (f b)) : NoUPT (x >>= f) := by
  cases x with
  | error e => cases e <;> simpa [Bind.bind, Except.bind, NoUPT] using hx
  | ok b => simpa [Bind.bind, Except.bind] using hf b

/-- Mapping a pure function preserves the discipline. -/
theorem NoUPT.map {β γ : Type} {x : Except Err β} (f : β → γ)
    (hx : NoUPT x) : NoUPT (x.map f) := by
  cases x with
  | error e => cases e <;> simpa [Except.map, NoUPT] using hx
  | ok b => simp [Except.map, NoUPT]

/-- An outcome under the discipline is not an unrecognized-page-type
error. -/
theorem NoUPT.ne {β : Type} {x : Except Err β} (h : NoUPT x) (t : String) :
    x ≠ .error (.unrecognizedPageType t) := by
  intro hx
  rw [hx] at h
  exact h

/-- _make_plain_text can only return a value or a KeyError. -/
theorem make_plain_text_noUPT (n : Node) : NoUPT (_make_plain_text n) := by
  unfold _make_plain_text
  apply NoUPT.bind
  · cases n <;> trivial
  · intro cs
    induction cs with
    | nil => trivial
    | cons c rest ih =>
      cases c with
      | text v =>
        simp only [plainOfList]
        exact NoUPT.map _ ih
      | node t2 u2 g2 cc =>
        simp only [plainOfList]
        trivial

/-- _only_child can only return a value or a KeyError. -/
theorem only_child_noUPT (n : Node) (nt : String) : NoUPT (_only_child n nt) := by
  unfold _only_child
  apply NoUPT.bind
  · cases n <;> trivial
  · intro cs
    trivial

/-- _make_logo never raises the unrecognized-page-type error. -/
theorem make_logo_noUPT (ctx : Ctx) (e : Entry) : NoUPT (_make_logo ctx e) := by
  simp only [_make_logo]
  split <;> trivial

/-- _make_wordmark never raises the unrecognized-page-type error. -/
theorem make_wordmark_noUPT (ctx : Ctx) (e : Entry) :
    NoUPT (_make_wordmark ctx e) := by
  simp only [_make_wordmark]
  split <;> trivial

/-- _make_cta_button never raises the unrecognized-page-type error. -/
theorem make_cta_button_noUPT (ctx : Ctx) (v : Option FVal) :
    NoUPT (_make_cta_button ctx v) := by
  simp only [_make_cta_button]
  split <;> trivial

/-- The per-node renderer dispatch never raises the unrecognized-page-type
error, provided the fetches and the rendered child content do not. -/
theorem renderNode_noUPT (ctx : Ctx) (campaign t uri tid : String)
    (cs : List Node) (rContent rInner : Except Err String)
    (hFE : ∀ id, NoUPT (ctx.fetchEntry id))
    (hFA : ∀ id, NoUPT (ctx.fetchAsset id))
    (hC : NoUPT rContent) (hI : NoUPT rInner) :
    NoUPT (renderNode ctx campaign t uri tid cs rContent rInner) := by
  unfold renderNode
  by_cases h1 : (t == "hyperlink") = true
  · rw [if_pos h1]
    simp only []
    split
    · exact NoUPT.bind (NoUPT.map _ (make_plain_text_noUPT _))
        (fun _ => NoUPT.bind hC (fun _ => trivial))
    · exact NoUPT.bind trivial (fun _ => NoUPT.bind hC (fun _ => trivial))
  rw [if_neg h1]
  by_cases h2 : (t == "bold") = true
  · rw [if_pos h2]; trivial
  rw [if_neg h2]
  by_cases h3 : (t == "italic") = true
  · rw [if_pos h3]; trivial
  rw [if_neg h3]
  by_cases h4 : (t == "unordered-list") = true
  · rw [if_pos h4]; exact NoUPT.map _ hC
  rw [if_neg h4]
  by_cases h5 : (t == "ordered-list") = true
  · rw [if_pos h5]; exact NoUPT.map _ hC
  rw [if_neg h5]
  by_cases h6 : (t == "list-item") = true
  · rw [if_pos h6]
    apply NoUPT.bind (only_child_noUPT _ _)
    intro oc
    cases oc with
    | false => exact NoUPT.map _ hC
    | true => exact NoUPT.map _ hI
  rw [if_neg h6]
  by_cases h7 : (t == "paragraph") = true
  · rw [if_pos h7]
    apply NoUPT.bind (only_child_noUPT _ _)
    intro oc
    cases oc with
    | true => exact NoUPT.map _ hC
    | false =>
      cases cs with
      | nil => exact NoUPT.map _ hC
      | cons c rest =>
        cases rest with
        | cons c2 rest2 => exact NoUPT.map _ hC
        | nil =>
          cases hb : (c.nodeTypeOf == "text" && c.valueOf == "") with
          | true => simp only [hb]; trivial
          | false => simp only [hb]; exact NoUPT.map _ hC
  rw [if_neg h7]
  by_cases h8 : (t == "embedded-entry-inline") = true
  · rw [if_pos h8]
    apply NoUPT.bind (hFE tid)
    intro entry
    by_cases e1 : (entry.sysOf.contentType == "componentLogo") = true
    · rw [if_pos e1]; exact make_logo_noUPT ctx entry
    rw [if_neg e1]
    by_cases e2 : (entry.sysOf.contentType == "componentWordmark") = true
    · rw [if_pos e2]; exact make_wordmark_noUPT ctx entry
    rw [if_neg e2]
    by_cases e3 : (entry.sysOf.contentType == "componentCtaButton") = true
    · rw [if_pos e3]; exact make_cta_button_noUPT ctx _
    rw [if_neg e3]
    trivial
  rw [if_neg h8]
  by_cases h9 : (t == "embedded-asset-block") = true
  · rw [if_pos h9]
    exact NoUPT.bind (hFA tid) (fun _ => trivial)
  rw [if_neg h9]
  by_cases h10 : (t == "document") = true
  · rw [if_pos h10]; exact hC
  rw [if_neg h10]
  trivial

/-- Strong induction on node size: rendering never raises the
unrecognized-page-type error when the CMS fetches do not. -/
theorem render_noUPT_aux (ctx : Ctx) (campaign : String)
    (hFE : ∀ id, NoUPT (ctx.fetchEntry id))
    (hFA : ∀ id, NoUPT (ctx.fetchAsset id)) :
    ∀ k : Nat,
    (∀ n : Node, sizeOf n ≤ k → NoUPT (render ctx campaign n)) ∧
    (∀ ns : List Node, sizeOf ns ≤ k → NoUPT (renderList ctx campaign ns)) := by
  intro k
  induction k with
  | zero =>
    constructor
    · intro n hn
      exfalso
      cases n with
      | text v => rw [Node.text.sizeOf_spec] at hn; omega
      | node a b c d => rw [Node.node.sizeOf_spec] at hn; omega
    · intro ns hn
      exfalso
      cases ns with
      | nil => rw [List.nil.sizeOf_spec] at hn; omega
      | cons c rest => rw [List.cons.sizeOf_spec] at hn; omega
  | succ k ih =>
    constructor
    · intro n hn
      cases n with
      | text v => trivial
      | node t uri tid cs =>
        have hcs : sizeOf cs ≤ k := by
          rw [Node.node.sizeOf_spec] at hn
          omega
        have hinner : NoUPT (renderInner ctx campaign cs) := by
          cases cs with
          | nil => trivial
          | cons c rest =>
            cases c with
            | text v => trivial
            | node t2 u2 g2 ccs =>
              have hccs : sizeOf ccs ≤ k := by
                rw [List.cons.sizeOf_spec, Node.node.sizeOf_spec] at hcs
                omega
              simp only [renderInner]
              exact ih.2 ccs hccs
        exact renderNode_noUPT ctx campaign t uri tid cs _ _ hFE hFA
          (ih.2 cs hcs) hinner
    · intro ns hn
      cases ns with
      | nil => trivial
      | cons c rest =>
        have hc : sizeOf c ≤ k := by
          rw [List.cons.sizeOf_spec] at hn; omega
        have hrest : sizeOf rest ≤ k := by
          rw [List.cons.sizeOf_spec] at hn; omega
        simp only [renderList]
        exact NoUPT.bind (ih.1 c hc)
          (fun _ => NoUPT.bind (ih.2 rest hrest) (fun _ => trivial))

/-- RichTextRenderer never raises the unrecognized-page-type error when
the CMS fetches do not. -/
theorem render_noUPT (ctx : Ctx) (campaign : String)
    (hFE : ∀ id, NoUPT (ctx.fetchEntry id))
    (hFA : ∀ id, NoUPT (ctx.fetchAsset id)) (n : Node) :
    NoUPT (render ctx campaign n) :=
  (render_noUPT_aux ctx campaign hFE hFA (sizeOf n)).1 n (Nat.le_refl _)

/-- Rendering a child list never raises the unrecognized-page-type error
when the CMS fetches do not. -/
theorem renderList_noUPT (ctx : Ctx) (campaign : String)
    (hFE : ∀ id, NoUPT (ctx.fetchEntry id))
    (hFA : ∀ id, NoUPT (ctx.fetchAsset id)) (ns : List Node) :
    NoUPT (renderList ctx campaign ns) :=
  (render_noUPT_aux ctx campaign hFE hFA (sizeOf ns)).2 ns (Nat.le_refl _)

/-- Membership tests can only return a value or a TypeError. -/
theorem pyIn_noUPT (needle : String) (v : FVal) : NoUPT (pyIn needle v) := by
  unfold pyIn
  split <;> trivial

/-- _get_youtube_id can only return a value or a KeyError. -/
theorem youtube_id_noUPT (u : String) : NoUPT (_get_youtube_id u) := by
  unfold _get_youtube_id
  simp only []
  split <;> trivial

/-- render_rich_text never raises the unrecognized-page-type error when
the CMS fetches do not. -/
theorem render_rich_text_noUPT (ctx : Ctx) (campaign : String)
    (hFE : ∀ id, NoUPT (ctx.fetchEntry id))
    (hFA : ∀ id, NoUPT (ctx.fetchAsset id)) (v : Option FVal) :
    NoUPT (render_rich_text ctx campaign v) := by
  unfold render_rich_text
  split
  · split
    · exact render_noUPT ctx campaign hFE hFA _
    · trivial
    · trivial
  · trivial

theorem get_text_data_noUPT (ctx : Ctx) (campaign : String)
    (hFE : ∀ id, NoUPT (ctx.fetchEntry id))
    (hFA : ∀ id, NoUPT (ctx.fetchAsset id)) (v : Option FVal) :
    NoUPT (get_text_data ctx campaign v) := by
  unfold get_text_data
  exact NoUPT.bind (render_rich_text_noUPT ctx campaign hFE hFA _)
    (fun _ => trivial)

theorem get_hero_data_noUPT (ctx : Ctx) (campaign : String)
    (hFE : ∀ id, NoUPT (ctx.fetchEntry id))
    (hFA : ∀ id, NoUPT (ctx.fetchAsset id)) (e : Entry) :
    NoUPT (get_hero_data ctx campaign e) := by
  unfold get_hero_data
  repeat' first
    | apply NoUPT.bind
    | intro _
    | exact render_rich_text_noUPT ctx campaign hFE hFA _
    | exact make_cta_button_noUPT ctx _
    | split
    | trivial
    | simp only []

theorem get_section_data_noUPT (e : Entry) : NoUPT (get_section_data e) :=
  trivial

theorem get_split_data_noUPT (ctx : Ctx) (campaign : String)
    (hFE : ∀ id, NoUPT (ctx.fetchEntry id))
    (hFA : ∀ id, NoUPT (ctx.fetchAsset id)) (e : Entry) :
    NoUPT (get_split_data ctx campaign e) := by
  unfold get_split_data
  repeat' first
    | apply NoUPT.bind
    | intro _
    | exact render_rich_text_noUPT ctx campaign hFE hFA _
    | exact pyIn_noUPT _ _
    | split
    | trivial
    | simp only []

theorem get_callout_data_noUPT (ctx : Ctx) (campaign : String)
    (hFE : ∀ id, NoUPT (ctx.fetchEntry id))
    (hFA : ∀ id, NoUPT (ctx.fetchAsset id)) (e : Entry) :
    NoUPT (get_callout_data ctx campaign e) := by
  unfold get_callout_data
  repeat' first
    | apply NoUPT.bind
    | intro _
    | exact render_rich_text_noUPT ctx campaign hFE hFA _
    | exact make_cta_button_noUPT ctx _
    | split
    | trivial
    | simp only []

set_option maxHeartbeats 1000000 in
theorem get_card_data_noUPT (ctx : Ctx) (campaign : String)
    (hFE : ∀ id, NoUPT (ctx.fetchEntry id))
    (hFA : ∀ id, NoUPT (ctx.fetchAsset id)) (c ar : Option FVal) :
    NoUPT (get_card_data ctx campaign c ar) := by
  unfold get_card_data
  simp only []
  split
  case _ e =>
    refine NoUPT.bind ?_ ?_
    · trivial
    · intro fields
      split
      · refine NoUPT.bind (render_rich_text_noUPT ctx campaign hFE hFA _) ?_
        intro card_body
        split
        · refine NoUPT.bind ?_ ?_
          · trivial
          · intro urls
            split
            · exact NoUPT.bind (youtube_id_noUPT _) (fun _ => trivial)
            · trivial
            · refine NoUPT.bind ?_ ?_
              · trivial
              · intro y
                trivial
        · trivial
        · refine NoUPT.bind ?_ ?_
          · trivial
          · intro urls
            split
            · exact NoUPT.bind (youtube_id_noUPT _) (fun _ => trivial)
            · trivial
            · refine NoUPT.bind ?_ ?_
              · trivial
              · intro y
                trivial
      · refine NoUPT.bind ?_ ?_
        · trivial
        · intro card_body
          split
          · refine NoUPT.bind ?_ ?_
            · trivial
            · intro urls
              split
              · exact NoUPT.bind (youtube_id_noUPT _) (fun _ => trivial)
              · trivial
              · refine NoUPT.bind ?_ ?_
                · trivial
                · intro y
                  trivial
          · trivial
          · refine NoUPT.bind ?_ ?_
            · trivial
            · intro urls
              split
              · exact NoUPT.bind (youtube_id_noUPT _) (fun _ => trivial)
              · trivial
              · refine NoUPT.bind ?_ ?_
                · trivial
                · intro y
                  trivial
  case _ => trivial

theorem get_large_card_data_noUPT (ctx : Ctx) (campaign : String)
    (hFE : ∀ id, NoUPT (ctx.fetchEntry id))
    (hFA : ∀ id, NoUPT (ctx.fetchAsset id)) (e c : Option FVal) :
    NoUPT (get_large_card_data ctx campaign e c) := by
  unfold get_large_card_data
  repeat' first
    | apply NoUPT.bind
    | intro _
    | exact get_card_data_noUPT ctx campaign hFE hFA _ _
    | split
    | trivial
    | simp only []

theorem cardLoop_noUPT (ctx : Ctx) (campaign : String)
    (hFE : ∀ id, NoUPT (ctx.fetchEntry id))
    (hFA : ∀ id, NoUPT (ctx.fetchAsset id)) (ar : Option FVal)
    (l : List Entry) : ∀ b : Bool, NoUPT (cardLoop ctx campaign ar b l) := by
  induction l with
  | nil => intro b; trivial
  | cons c rest ih =>
    intro b
    unfold cardLoop
    exact NoUPT.bind (get_card_data_noUPT ctx campaign hFE hFA _ _)
      (fun _ => NoUPT.bind (ih false) (fun _ => trivial))

theorem get_card_layout_data_noUPT (ctx : Ctx) (campaign : String)
    (hFE : ∀ id, NoUPT (ctx.fetchEntry id))
    (hFA : ∀ id, NoUPT (ctx.fetchAsset id)) (e : Entry) :
    NoUPT (get_card_layout_data ctx campaign e) := by
  unfold get_card_layout_data
  repeat' first
    | apply NoUPT.bind
    | intro _
    | exact get_large_card_data_noUPT ctx campaign hFE hFA _ _
    | exact cardLoop_noUPT ctx campaign hFE hFA _ _ _
    | split
    | trivial
    | simp only []

theorem get_picto_data_noUPT (ctx : Ctx) (campaign : String)
    (hFE : ∀ id, NoUPT (ctx.fetchEntry id))
    (hFA : ∀ id, NoUPT (ctx.fetchAsset id)) (p : Entry) (w : Option Int) :
    NoUPT (get_picto_data ctx campaign p w) := by
  unfold get_picto_data
  repeat' first
    | apply NoUPT.bind
    | intro _
    | exact NoUPT.map _ (render_rich_text_noUPT ctx campaign hFE hFA _)
    | exact render_rich_text_noUPT ctx campaign hFE hFA _
    | split
    | trivial
    | simp only []

theorem pictoLoop_noUPT (ctx : Ctx) (campaign : String)
    (hFE : ∀ id, NoUPT (ctx.fetchEntry id))
    (hFA : ∀ id, NoUPT (ctx.fetchAsset id)) (w : Option Int)
    (l : List Entry) : NoUPT (pictoLoop ctx campaign w l) := by
  induction l with
  | nil => trivial
  | cons p rest ih =>
    unfold pictoLoop
    exact NoUPT.bind (get_picto_data_noUPT ctx campaign hFE hFA _ _)
      (fun _ => NoUPT.bind ih (fun _ => trivial))

theorem get_picto_layout_data_noUPT (ctx : Ctx) (campaign : String)
    (hFE : ∀ id, NoUPT (ctx.fetchEntry id))
    (hFA : ∀ id, NoUPT (ctx.fetchAsset id)) (e : Entry) :
    NoUPT (get_picto_layout_data ctx campaign e) := by
  unfold get_picto_layout_data
  repeat' first
    | apply NoUPT.bind
    | intro _
    | exact pictoLoop_noUPT ctx campaign hFE hFA _ _
    | split
    | trivial
    | simp only []

theorem get_text_column_data_noUPT (ctx : Ctx) (campaign : String)
    (hFE : ∀ id, NoUPT (ctx.fetchEntry id))
    (hFA : ∀ id, NoUPT (ctx.fetchAsset id)) (cols : Int) (e : Entry) :
    NoUPT (get_text_column_data ctx campaign cols e) := by
  unfold get_text_column_data
  repeat' first
    | apply NoUPT.bind
    | intro _
    | exact render_rich_text_noUPT ctx campaign hFE hFA _
    | exact NoUPT.map _ (render_rich_text_noUPT ctx campaign hFE hFA _)
    | split
    | trivial
    | simp only []

theorem get_info_data_noUPT (e : Entry) : NoUPT (get_info_data e) := by
  unfold get_info_data
  repeat' first
    | apply NoUPT.bind
    | intro _
    | exact pyIn_noUPT _ _
    | split
    | trivial
    | simp only []

theorem runProc_noUPT (ctx : Ctx) (campaign : String)
    (hFE : ∀ id, NoUPT (ctx.fetchEntry id))
    (hFA : ∀ id, NoUPT (ctx.fetchAsset id)) (name : String) (item : Entry) :
    NoUPT (runProc ctx campaign name item) := by
  unfold runProc
  split
  · exact NoUPT.map _ (get_hero_data_noUPT ctx campaign hFE hFA _)
  · exact NoUPT.map _ (get_section_data_noUPT _)
  · exact NoUPT.map _ (get_split_data_noUPT ctx campaign hFE hFA _)
  · exact NoUPT.map _ (get_callout_data_noUPT ctx campaign hFE hFA _)
  · exact NoUPT.map _ (get_card_layout_data_noUPT ctx campaign hFE hFA _)
  · exact NoUPT.map _ (get_picto_layout_data_noUPT ctx campaign hFE hFA _)
  · exact NoUPT.map _ (get_text_column_data_noUPT ctx campaign hFE hFA _ _)
  · exact NoUPT.map _ (get_text_column_data_noUPT ctx campaign hFE hFA _ _)
  · exact NoUPT.map _ (get_text_column_data_noUPT ctx campaign hFE hFA _ _)
  · exact NoUPT.map _ (get_text_column_data_noUPT ctx campaign hFE hFA _ _)
  · trivial

theorem procItem_noUPT (ctx : Ctx) (campaign : String)
    (hFE : ∀ id, NoUPT (ctx.fetchEntry id))
    (hFA : ∀ id, NoUPT (ctx.fetchAsset id)) (acc : ProcAcc) (item : FVal) :
    NoUPT (procItem ctx campaign acc item) := by
  unfold procItem
  repeat' first
    | apply NoUPT.bind
    | intro _
    | exact runProc_noUPT ctx campaign hFE hFA _ _
    | split
    | trivial
    | simp only []

theorem generalFold_noUPT (ctx : Ctx) (campaign : String)
    (hFE : ∀ id, NoUPT (ctx.fetchEntry id))
    (hFA : ∀ id, NoUPT (ctx.fetchAsset id)) (l : List (String × FVal)) :
    ∀ acc : ProcAcc, NoUPT (generalFold ctx campaign l acc) := by
  induction l with
  | nil => intro acc; trivial
  | cons kv rest ih =>
    intro acc
    unfold generalFold
    repeat' first
      | apply NoUPT.bind
      | intro _
      | exact ih _
      | exact procItem_noUPT ctx campaign hFE hFA _ _
      | exact NoUPT.map _ (get_text_data_noUPT ctx campaign hFE hFA _)
      | exact get_text_data_noUPT ctx campaign hFE hFA _
      | exact render_rich_text_noUPT ctx campaign hFE hFA _
      | split
      | trivial
      | simp only []

theorem contentFold_noUPT (ctx : Ctx) (campaign : String)
    (hFE : ∀ id, NoUPT (ctx.fetchEntry id))
    (hFA : ∀ id, NoUPT (ctx.fetchAsset id)) (l : List Entry) :
    ∀ acc : ProcAcc, NoUPT (contentFold ctx campaign l acc) := by
  induction l with
  | nil => intro acc; trivial
  | cons e rest ih =>
    intro acc
    unfold contentFold
    exact NoUPT.bind (procItem_noUPT ctx campaign hFE hFA _ _)
      (fun _ => ih _)

set_option maxHeartbeats 2000000 in
/-- The no-error half of C8: for a root entry whose content type starts
with the page prefix or is the homepage connector, get_content never
raises the unrecognized-page-type error (it may still fail with the
KeyError, AttributeError, TypeError or IndexError outcomes the mappers
raise), provided the CMS fetches never raise it either. -/
theorem getContent_noUPT (ctx : Ctx) (page : Entry)
    (hFE : ∀ id, NoUPT (ctx.fetchEntry id))
    (hFA : ∀ id, NoUPT (ctx.fetchAsset id))
    (h : strStartsWith page.sysOf.contentType "page" = true ∨
         page.sysOf.contentType = "connectHomepage") :
    NoUPT (getContent ctx page) := by
  unfold getContent
  simp only []
  rcases h with h | h
  · rw [if_pos h]
    repeat' first
      | apply NoUPT.bind
      | intro _
      | exact get_info_data_noUPT _
      | exact pyIn_noUPT _ _
      | exact generalFold_noUPT ctx _ hFE hFA _ _
      | exact contentFold_noUPT ctx _ hFE hFA _ _
      | split
      | trivial
      | simp only []
  · rw [h]
    rw [if_neg (by decide)]
    rw [if_pos (by decide)]
    repeat' first
      | apply NoUPT.bind
      | intro _
      | exact get_info_data_noUPT _
      | exact pyIn_noUPT _ _
      | exact generalFold_noUPT ctx _ hFE hFA _ _
      | exact contentFold_noUPT ctx _ hFE hFA _ _
      | split
      | trivial
      | simp only []

/-- The error half of C8: a root entry whose content type neither starts
with the page prefix nor is the homepage connector makes get_content fail
immediately with the unrecognized-page-type error carrying that tag. -/
theorem getContent_upt (ctx : Ctx) (page : Entry)
    (h1 : strStartsWith page.sysOf.contentType "page" = false)
    (h2 : page.sysOf.contentType ≠ "connectHomepage") :
    getContent ctx page =
      .error (.unrecognizedPageType page.sysOf.contentType) := by
  unfold getContent
  simp only []
  rw [if_neg (by simp [h1])]
  rw [if_neg (by simp [h2])]
  rfl

/-- A root entry bearing a content type outside the recognized page
types. -/
def c8PageEx : Entry := .mk ⟨"c8p", "resourceCenter", "en-US"⟩ []

/-- C8: page assembly (get_content) raises the unrecognized-page-type
error if and only if the content-type tag of the root entry neither
starts with "page" nor equals "connectHomepage"; the error is returned to
the caller, not swallowed. The hypotheses say the CMS fetch capabilities
themselves never produce that error, which the client wrapping in api.py
cannot do. -/
theorem c8_unrecognized_page_type (ctx : Ctx) (page : Entry)
    (hFE : ∀ id, NoUPT (ctx.fetchEntry id))
    (hFA : ∀ id, NoUPT (ctx.fetchAsset id)) :
    (∃ t, getContent ctx page = .error (.unrecognizedPageType t)) ↔
    (strStartsWith page.sysOf.contentType "page" = false ∧
     page.sysOf.contentType ≠ "connectHomepage") := by
  constructor
  · rintro ⟨t, ht⟩
    constructor
    · cases hc : strStartsWith page.sysOf.contentType "page" with
      | false => rfl
      | true =>
        exact absurd ht
          (NoUPT.ne (getContent_noUPT ctx page hFE hFA (Or.inl hc)) t)
    · intro heq
      exact absurd ht
        (NoUPT.ne (getContent_noUPT ctx page hFE hFA (Or.inr heq)) t)
  · rintro ⟨h1, h2⟩
    exact ⟨page.sysOf.contentType, getContent_upt ctx page h1 h2⟩

/-- Witness: a concrete root entry of content type resourceCenter makes
get_content return the unrecognized-page-type error. -/
theorem c8_unrecognized_page_type_witness :
    ∃ t, getContent ctxEx c8PageEx = Except.error (Err.unrecognizedPageType t) :=
  (c8_unrecognized_page_type ctxEx c8PageEx (fun _ => trivial)
    (fun _ => trivial)).mpr ⟨rfl, by decide⟩
